import Mathlib

/-!
# WebGPUError: the set-up procedure of `main.cpp`

A shallow embedding of `src/main.cpp`.  The program is a straight-line
sequence of calls into GLFW, WebGPU and the repository's `Utils` helpers.
The results of those calls are not determined by the program, so they are
supplied by an environment `Env`; the program is a function from the
environment to the trace of the calls it makes together with its outcome
(a normal return or an uncaught `std::runtime_error`).

Handles (`WGPUInstance`, `GLFWwindow*`, ...) are pointers; they are modelled
as natural numbers with `0` for the null pointer.
-/

namespace WebGPUError

/-! ## Handles and enumerations -/

/-- An opaque handle returned by the external API; `0` is the null handle. -/
abbrev Handle := Nat

/-- The null pointer. -/
def nullptr : Handle := 0

/-- The byte size of a `float` on the target. -/
def sizeofFloat : Nat := 4

/-! The enumerations below are those of the WebGPU header.  Each lists the
constant `main.cpp` uses together with the other constants of the same C
enumeration that a descriptor field of that type can hold; `Undefined` and
`None` are the values a field has after `{}`. -/

/-- Texture formats (`WGPUTextureFormat_*`). -/
inductive WGPUTextureFormat where
  | Undefined
  | R8Unorm
  | RGBA8Unorm
  | RGBA8UnormSrgb
  | BGRA8Unorm
  | BGRA8UnormSrgb
  | RGBA16Float
  | Depth24Plus
  | Depth32Float
  deriving DecidableEq, Repr

/-- Present modes (`WGPUPresentMode_*`). -/
inductive WGPUPresentMode where
  | Immediate
  | Mailbox
  | Fifo
  deriving DecidableEq, Repr

/-- Texture usages (`WGPUTextureUsage_*`). -/
inductive WGPUTextureUsage where
  | None
  | CopySrc
  | CopyDst
  | TextureBinding
  | StorageBinding
  | RenderAttachment
  deriving DecidableEq, Repr

/-- Vertex formats made of 32-bit floats (`WGPUVertexFormat_Float32*`). -/
inductive WGPUVertexFormat where
  | Float32
  | Float32x2
  | Float32x3
  | Float32x4
  deriving DecidableEq, Repr

/-- Vertex step modes (`WGPUVertexStepMode_*`). -/
inductive WGPUVertexStepMode where
  | Vertex
  | Instance
  deriving DecidableEq, Repr

/-- Primitive topologies (`WGPUPrimitiveTopology_*`). -/
inductive WGPUPrimitiveTopology where
  | PointList
  | LineList
  | LineStrip
  | TriangleList
  | TriangleStrip
  deriving DecidableEq, Repr

/-- Index formats (`WGPUIndexFormat_*`). -/
inductive WGPUIndexFormat where
  | Undefined
  | Uint16
  | Uint32
  deriving DecidableEq, Repr

/-- Front-face windings (`WGPUFrontFace_*`). -/
inductive WGPUFrontFace where
  | CCW
  | CW
  deriving DecidableEq, Repr

/-- Cull modes (`WGPUCullMode_*`). -/
inductive WGPUCullMode where
  | None
  | Front
  | Back
  deriving DecidableEq, Repr

/-- Blend factors (`WGPUBlendFactor_*`). -/
inductive WGPUBlendFactor where
  | Zero
  | One
  | Src
  | OneMinusSrc
  | SrcAlpha
  | OneMinusSrcAlpha
  | Dst
  | OneMinusDst
  | DstAlpha
  | OneMinusDstAlpha
  deriving DecidableEq, Repr

/-- Blend operations (`WGPUBlendOperation_*`). -/
inductive WGPUBlendOperation where
  | Add
  | Subtract
  | ReverseSubtract
  | Min
  | Max
  deriving DecidableEq, Repr

/-- Colour write masks (`WGPUColorWriteMask_*`). -/
inductive WGPUColorWriteMask where
  | None
  | Red
  | Green
  | Blue
  | Alpha
  | All
  deriving DecidableEq, Repr

/-- Shader stage flags (`WGPUShaderStage_*`); a visibility is a set of them. -/
inductive WGPUShaderStage where
  | Vertex
  | Fragment
  | Compute
  deriving DecidableEq, Repr

/-- Buffer binding types (`WGPUBufferBindingType_*`). -/
inductive WGPUBufferBindingType where
  | Undefined
  | Uniform
  | Storage
  | ReadOnlyStorage
  deriving DecidableEq, Repr

/-- GLFW window hints and hint values (`GLFW_*`). -/
inductive GLFWConstant where
  | GLFW_CLIENT_API
  | GLFW_NO_API
  | GLFW_OPENGL_API
  | GLFW_RESIZABLE
  | GLFW_VISIBLE
  | GLFW_FALSE
  | GLFW_TRUE
  deriving DecidableEq, Repr

/-! ## Descriptors -/

/-- The fields of `WGPUInstanceDescriptor` that `main` sets. -/
structure WGPUInstanceDescriptor where
  nextInChain : Handle
  deriving DecidableEq, Repr

/-- The fields of `WGPUSwapChainDescriptor`; `buildSwapchain` sets all of them. -/
structure WGPUSwapChainDescriptor where
  nextInChain : Handle
  label : String
  usage : WGPUTextureUsage
  format : WGPUTextureFormat
  width : Nat
  height : Nat
  presentMode : WGPUPresentMode
  deriving DecidableEq, Repr

/-- The fields of `WGPURequestAdapterOptions` that `main` sets. -/
structure WGPURequestAdapterOptions where
  nextInChain : Handle
  compatibleSurface : Handle
  deriving DecidableEq, Repr

/-- The limits record `WGPULimits`.  The nine fields that `main.cpp` names are
fields here; every other field of the C struct is kept in `rest`, keyed by its
name, so that no field list of the (external) header is assumed. -/
structure WGPULimits where
  maxVertexAttributes : Nat
  maxVertexBuffers : Nat
  maxBufferSize : Nat
  minStorageBufferOffsetAlignment : Nat
  minUniformBufferOffsetAlignment : Nat
  maxInterStageShaderComponents : Nat
  maxBindGroups : Nat
  maxUniformBuffersPerShaderStage : Nat
  maxUniformBufferBindingSize : Nat
  rest : String → Nat

/-- The value of a limits record after `{}`: every field is zero. -/
def WGPULimits.zero : WGPULimits where
  maxVertexAttributes := 0
  maxVertexBuffers := 0
  maxBufferSize := 0
  minStorageBufferOffsetAlignment := 0
  minUniformBufferOffsetAlignment := 0
  maxInterStageShaderComponents := 0
  maxBindGroups := 0
  maxUniformBuffersPerShaderStage := 0
  maxUniformBufferBindingSize := 0
  rest := fun _ => 0

/-- The record `WGPUSupportedLimits`. -/
structure WGPUSupportedLimits where
  nextInChain : Handle
  limits : WGPULimits

/-- The record `WGPURequiredLimits`. -/
structure WGPURequiredLimits where
  nextInChain : Handle
  limits : WGPULimits

/-- The fields of `WGPUDeviceDescriptor` that `main` sets; `requiredLimits` is
the record the pointer field points to. -/
structure WGPUDeviceDescriptor where
  nextInChain : Handle
  label : String
  requiredFeatureCount : Nat
  requiredLimits : WGPURequiredLimits
  defaultQueueLabel : String

/-- A `WGPUVertexAttribute`, with the fields `main` sets. -/
structure WGPUVertexAttribute where
  format : WGPUVertexFormat
  offset : Nat
  deriving DecidableEq, Repr

/-- A `WGPUVertexBufferLayout`; `attributes` is the array the pointer field
points to. -/
structure WGPUVertexBufferLayout where
  arrayStride : Nat
  stepMode : WGPUVertexStepMode
  attributeCount : Nat
  attributes : List WGPUVertexAttribute
  deriving DecidableEq, Repr

/-- The fields of `WGPUVertexState` that `main` sets. -/
structure WGPUVertexState where
  module : Handle
  entryPoint : String
  constantCount : Nat
  constants : Handle
  bufferCount : Nat
  buffers : WGPUVertexBufferLayout
  deriving DecidableEq, Repr

/-- The fields of `WGPUPrimitiveState` that `main` sets. -/
structure WGPUPrimitiveState where
  topology : WGPUPrimitiveTopology
  stripIndexFormat : WGPUIndexFormat
  frontFace : WGPUFrontFace
  cullMode : WGPUCullMode
  deriving DecidableEq, Repr

/-- The fields of `WGPUFragmentState` that `main` sets. -/
structure WGPUFragmentState where
  module : Handle
  entryPoint : String
  constantCount : Nat
  constants : Handle
  deriving DecidableEq, Repr

/-- A `WGPUBlendComponent`. -/
structure WGPUBlendComponent where
  operation : WGPUBlendOperation
  srcFactor : WGPUBlendFactor
  dstFactor : WGPUBlendFactor
  deriving DecidableEq, Repr

/-- A `WGPUBlendState`. -/
structure WGPUBlendState where
  color : WGPUBlendComponent
  alpha : WGPUBlendComponent
  deriving DecidableEq, Repr

/-- A `WGPUColorTargetState`; `blend` is the record the pointer points to. -/
structure WGPUColorTargetState where
  nextInChain : Handle
  format : WGPUTextureFormat
  blend : WGPUBlendState
  writeMask : WGPUColorWriteMask
  deriving DecidableEq, Repr

/-- The fields of `WGPUMultisampleState` that `main` sets. -/
structure WGPUMultisampleState where
  count : Nat
  mask : Nat
  alphaToCoverageEnabled : Bool
  deriving DecidableEq, Repr

/-- The fields of `WGPURenderPipelineDescriptor` that `main` sets; `fragment`
is the record the pointer points to and `depthStencil` is a null pointer. -/
structure WGPURenderPipelineDescriptor where
  vertex : WGPUVertexState
  primitive : WGPUPrimitiveState
  depthStencil : Handle
  multisample : WGPUMultisampleState
  fragment : WGPUFragmentState
  deriving DecidableEq, Repr

/-- A `WGPUBindGroupLayoutEntry`.  `main` overwrites `binding`, `visibility`
and `buffer.type`; `defaults` stands for all remaining fields, as
`Utils::createDefaultBindingLayout` left them. -/
structure WGPUBindGroupLayoutEntry where
  binding : Nat
  visibility : List WGPUShaderStage
  bufferType : Option WGPUBufferBindingType
  defaults : Nat
  deriving DecidableEq, Repr

/-- The fields of `WGPUBindGroupLayoutDescriptor` that `main` sets; `entries`
is the record the pointer points to. -/
structure WGPUBindGroupLayoutDescriptor where
  nextInChain : Handle
  label : String
  entryCount : Nat
  entries : WGPUBindGroupLayoutEntry
  deriving DecidableEq, Repr

/-! ## External calls, traces and outcomes -/

/-- One call to code outside `main.cpp`, with the arguments passed.  Pointer
arguments to descriptors carry the descriptor's value at the time of the call.
`cout` is one statement writing to `std::cout`: the text written and, where
the statement also writes a handle, that handle.  `api` is a call to any
other function of the GLFW and WebGPU interfaces, given by the function's name
and the handles passed to it: `wgpuRenderPassEncoderDraw`,
`wgpuSwapChainPresent`, `wgpuDeviceCreateRenderPipeline`, `wgpuDeviceRelease`,
`glfwDestroyWindow`, `glfwPollEvents` and so on. -/
inductive Call where
  | wgpuCreateInstance (desc : WGPUInstanceDescriptor)
  | glfwInit
  | glfwWindowHint (hint value : GLFWConstant)
  | glfwCreateWindow (width height : Nat) (title : String) (monitor share : Handle)
  | glfwGetWGPUSurface (inst window : Handle)
  | requestAdapter (inst : Handle) (options : WGPURequestAdapterOptions)
  | wgpuAdapterGetLimits (adapter : Handle) (limits : WGPUSupportedLimits)
  | requestDevice (adapter : Handle) (desc : WGPUDeviceDescriptor)
  | wgpuDeviceSetUncapturedErrorCallback (device userdata : Handle)
  | wgpuDeviceGetQueue (device : Handle)
  | wgpuDeviceCreateSwapChain (device surface : Handle) (desc : WGPUSwapChainDescriptor)
  | loadShaderModule (path : String) (device : Handle)
  | createDefaultBindingLayout
  | wgpuDeviceCreateBindGroupLayout (device : Handle) (desc : WGPUBindGroupLayoutDescriptor)
  | cout (text : String) (value : Option Handle)
  | api (function : String) (args : List Handle)

/-- The name of the function a call invokes, as written in C. -/
def Call.name : Call → String
  | .wgpuCreateInstance _ => "wgpuCreateInstance"
  | .glfwInit => "glfwInit"
  | .glfwWindowHint _ _ => "glfwWindowHint"
  | .glfwCreateWindow _ _ _ _ _ => "glfwCreateWindow"
  | .glfwGetWGPUSurface _ _ => "glfwGetWGPUSurface"
  | .requestAdapter _ _ => "Utils::requestAdapter"
  | .wgpuAdapterGetLimits _ _ => "wgpuAdapterGetLimits"
  | .requestDevice _ _ => "Utils::requestDevice"
  | .wgpuDeviceSetUncapturedErrorCallback _ _ => "wgpuDeviceSetUncapturedErrorCallback"
  | .wgpuDeviceGetQueue _ => "wgpuDeviceGetQueue"
  | .wgpuDeviceCreateSwapChain _ _ _ => "wgpuDeviceCreateSwapChain"
  | .loadShaderModule _ _ => "Utils::loadShaderModule"
  | .createDefaultBindingLayout => "Utils::createDefaultBindingLayout"
  | .wgpuDeviceCreateBindGroupLayout _ _ => "wgpuDeviceCreateBindGroupLayout"
  | .cout _ _ => "std::cout"
  | .api function _ => function

/-- The results of the external calls.  Each field gives, for the arguments of
a call, what the call returns.  The GLFW and WebGPU functions are C functions
and return a value; the `Utils` helpers are C++ functions of the repository
whose source is not part of `main.cpp`, so they may also throw. -/
structure Env where
  wgpuCreateInstance : WGPUInstanceDescriptor → Handle
  glfwInit : Int
  glfwCreateWindow : Nat → Nat → String → Handle → Handle → Handle
  glfwGetWGPUSurface : Handle → Handle → Handle
  requestAdapter : Handle → WGPURequestAdapterOptions → Except String Handle
  wgpuAdapterGetLimits : Handle → WGPUSupportedLimits → WGPUSupportedLimits
  requestDevice : Handle → WGPUDeviceDescriptor → Except String Handle
  wgpuDeviceGetQueue : Handle → Handle
  wgpuDeviceCreateSwapChain : Handle → Handle → WGPUSwapChainDescriptor → Handle
  loadShaderModule : String → Handle → Except String Handle
  createDefaultBindingLayout : Except String WGPUBindGroupLayoutEntry
  wgpuDeviceCreateBindGroupLayout : Handle → WGPUBindGroupLayoutDescriptor → Handle

/-- A run of a piece of the program: the calls made, in order, and how the
piece ended: `.ok a` when it completed with value `a`, `.error msg` when an
exception with message `msg` left it. -/
structure Run (α : Type) where
  trace : List Call
  outcome : Except String α

/-- Completing with a value, without any call. -/
def Run.pure {α : Type} (a : α) : Run α := ⟨[], .ok a⟩

/-- Sequencing: the second piece runs only when the first completed; an
exception ends the run with the trace so far. -/
def Run.bind {α β : Type} (m : Run α) (f : α → Run β) : Run β :=
  match m.outcome with
  | .error e => ⟨m.trace, .error e⟩
  | .ok a => ⟨m.trace ++ (f a).trace, (f a).outcome⟩

instance : Monad Run where
  pure := Run.pure
  bind := Run.bind

/-- A call to a C function: it is recorded and its result is returned. -/
def call {α : Type} (c : Call) (result : α) : Run α := ⟨[c], .ok result⟩

/-- A call to a C++ helper: it is recorded; it returns or throws. -/
def callCpp {α : Type} (c : Call) (result : Except String α) : Run α := ⟨[c], result⟩

/-- The statement `throw std::runtime_error(msg)`. -/
def throwRuntimeError {α : Type} (msg : String) : Run α := ⟨[], .error msg⟩

/-- One statement `std::cout << text << std::endl`. -/
def coutLine (text : String) : Run Unit := call (.cout text none) ()

/-- One statement `std::cout << text << handle << std::endl`. -/
def coutHandle (text : String) (h : Handle) : Run Unit := call (.cout text (some h)) ()

/-! ## `buildSwapchain` (main.cpp, lines 11-31) -/

/-- The descriptor `swapChainDesc` that `buildSwapchain` fills in
(lines 14-23). -/
def swapChainDesc : WGPUSwapChainDescriptor where
  nextInChain := nullptr
  label := "My Swapchain"
  width := 800
  height := 600
  format := WGPUTextureFormat.BGRA8Unorm
  presentMode := WGPUPresentMode.Fifo
  usage := WGPUTextureUsage.RenderAttachment

/-- The function `buildSwapchain(device, surface)`. -/
def buildSwapchain (env : Env) (device surface : Handle) : Run Handle := do
  coutLine "Building swapchain..."
  let swapChain ← call (.wgpuDeviceCreateSwapChain device surface swapChainDesc)
    (env.wgpuDeviceCreateSwapChain device surface swapChainDesc)
  if swapChain = nullptr then
    throwRuntimeError "Failed to create swapchain"
  coutHandle "Got swapchain: " swapChain
  return swapChain

/-! ## `main` (main.cpp, lines 33-178) -/

/-- The descriptor `instanceDesc` (lines 36-37). -/
def instanceDesc : WGPUInstanceDescriptor where
  nextInChain := nullptr

/-- The options `options` passed to `Utils::requestAdapter` (lines 58-60). -/
def adapterOptions (surface : Handle) : WGPURequestAdapterOptions where
  nextInChain := nullptr
  compatibleSurface := surface

/-- The value of `supportedLimits` after `{}` (line 67). -/
def supportedLimitsInit : WGPUSupportedLimits where
  nextInChain := nullptr
  limits := WGPULimits.zero

/-- The record `requiredLimits` (lines 71-80): zero after `{}`, then nine
fields assigned, two of them copied from `supportedLimits`. -/
def requiredLimits (supportedLimits : WGPUSupportedLimits) : WGPURequiredLimits where
  nextInChain := nullptr
  limits :=
    { WGPULimits.zero with
      maxVertexAttributes := 2
      maxVertexBuffers := 1
      maxBufferSize := (4 * 5 * sizeofFloat) % 2 ^ 64
      minStorageBufferOffsetAlignment := supportedLimits.limits.minStorageBufferOffsetAlignment
      minUniformBufferOffsetAlignment := supportedLimits.limits.minUniformBufferOffsetAlignment
      maxInterStageShaderComponents := 3
      maxBindGroups := 1
      maxUniformBuffersPerShaderStage := 1
      maxUniformBufferBindingSize := 16 * 4 }

/-- The descriptor `deviceDesc` (lines 82-87). -/
def deviceDesc (supportedLimits : WGPUSupportedLimits) : WGPUDeviceDescriptor where
  nextInChain := nullptr
  label := "My Device"
  requiredFeatureCount := 0
  requiredLimits := requiredLimits supportedLimits
  defaultQueueLabel := "The default queue"

/-- The lambda `onDeviceErrorCallback` (lines 94-100): what it writes to
`std::cout` when the library invokes it with an error type and an optional
message. -/
def onDeviceErrorCallback (type : Nat) (message : Option String) : List String :=
  ["Device error type: ", toString type] ++
    (match message with
     | some m => [" message: ", m]
     | none => []) ++ ["\n"]

/-- The vector `vertexAttribs` (lines 114-119). -/
def vertexAttribs : List WGPUVertexAttribute :=
  [ { format := WGPUVertexFormat.Float32x2, offset := 0 },
    { format := WGPUVertexFormat.Float32x3, offset := (2 * sizeofFloat) % 2 ^ 64 } ]

/-- The record `vertexBufferLayout` (lines 121-125). -/
def vertexBufferLayout : WGPUVertexBufferLayout where
  attributeCount := vertexAttribs.length % 2 ^ 32
  attributes := vertexAttribs
  arrayStride := (5 * sizeofFloat) % 2 ^ 64
  stepMode := WGPUVertexStepMode.Vertex

/-- The record `fragmentState` (lines 139-144). -/
def fragmentState (shaderModule : Handle) : WGPUFragmentState where
  entryPoint := "fs_main"
  module := shaderModule
  constantCount := 0
  constants := nullptr

/-- The record `blendState` (lines 146-152). -/
def blendState : WGPUBlendState where
  color :=
    { srcFactor := WGPUBlendFactor.SrcAlpha
      dstFactor := WGPUBlendFactor.OneMinusSrcAlpha
      operation := WGPUBlendOperation.Add }
  alpha :=
    { srcFactor := WGPUBlendFactor.Zero
      dstFactor := WGPUBlendFactor.One
      operation := WGPUBlendOperation.Add }

/-- The record `colorTarget` (lines 154-158). -/
def colorTarget : WGPUColorTargetState where
  nextInChain := nullptr
  format := WGPUTextureFormat.BGRA8Unorm
  blend := blendState
  writeMask := WGPUColorWriteMask.All

/-- The record `renderPipelineDesc` as `main` leaves it (lines 112, 127-137,
140, 160-163). -/
def renderPipelineDesc (shaderModule : Handle) : WGPURenderPipelineDescriptor where
  vertex :=
    { bufferCount := 1
      buffers := vertexBufferLayout
      entryPoint := "main"
      module := shaderModule
      constantCount := 0
      constants := nullptr }
  primitive :=
    { topology := WGPUPrimitiveTopology.TriangleList
      stripIndexFormat := WGPUIndexFormat.Undefined
      frontFace := WGPUFrontFace.CCW
      cullMode := WGPUCullMode.None }
  fragment := fragmentState shaderModule
  depthStencil := nullptr
  multisample :=
    { count := 1
      mask := 2 ^ 32 - 1
      alphaToCoverageEnabled := false }

/-- The entry `bindingLayout` after `main` has overwritten three of the fields
that `Utils::createDefaultBindingLayout` returned (lines 165-169). -/
def bindingLayout (dflt : WGPUBindGroupLayoutEntry) : WGPUBindGroupLayoutEntry :=
  { dflt with
    binding := 0
    visibility := [WGPUShaderStage.Vertex, WGPUShaderStage.Fragment]
    bufferType := some WGPUBufferBindingType.Uniform }

/-- The descriptor `bindGroupLayoutDesc` (lines 171-175). -/
def bindGroupLayoutDesc (entry : WGPUBindGroupLayoutEntry) : WGPUBindGroupLayoutDescriptor where
  nextInChain := nullptr
  label := "My Bind Group Layout"
  entryCount := 1
  entries := entry

/-- What `main` holds when it reaches its closing brace: the handles it
obtained, the descriptors it assembled, and its return value. -/
structure MainFrame where
  inst : Handle
  window : Handle
  surface : Handle
  adapter : Handle
  device : Handle
  queue : Handle
  swapChain : Handle
  shaderModule : Handle
  renderPipelineDesc : WGPURenderPipelineDescriptor
  vertexBufferLayout : WGPUVertexBufferLayout
  colorTarget : WGPUColorTargetState
  bindGroupLayout : Handle
  exitCode : Int

/-- The function `main()`. -/
def main (env : Env) : Run MainFrame := do
  let inst ← call (.wgpuCreateInstance instanceDesc) (env.wgpuCreateInstance instanceDesc)
  let initialised ← call .glfwInit env.glfwInit
  if initialised = 0 then
    throwRuntimeError "Failed to initialise GLFW"
  call (.glfwWindowHint .GLFW_CLIENT_API .GLFW_NO_API) ()
  call (.glfwWindowHint .GLFW_RESIZABLE .GLFW_FALSE) ()
  let window ← call (.glfwCreateWindow 800 600 "WebGPU" nullptr nullptr)
    (env.glfwCreateWindow 800 600 "WebGPU" nullptr nullptr)
  if window = nullptr then
    throwRuntimeError "Failed to create GLFW window"
  coutLine "Requesting adapter..."
  let surface ← call (.glfwGetWGPUSurface inst window) (env.glfwGetWGPUSurface inst window)
  if surface = nullptr then
    throwRuntimeError "Failed to create surface"
  let options := adapterOptions surface
  let adapter ← callCpp (.requestAdapter inst options) (env.requestAdapter inst options)
  if adapter = nullptr then
    throwRuntimeError "Failed to find suitable adapter"
  coutHandle "Got adapter: " adapter
  let supportedLimits ← call (.wgpuAdapterGetLimits adapter supportedLimitsInit)
    (env.wgpuAdapterGetLimits adapter supportedLimitsInit)
  coutLine "Requesting device..."
  let desc := deviceDesc supportedLimits
  let device ← callCpp (.requestDevice adapter desc) (env.requestDevice adapter desc)
  if device = nullptr then
    throwRuntimeError "Failed to create device"
  coutHandle "Got device: " device
  call (.wgpuDeviceSetUncapturedErrorCallback device nullptr) ()
  let queue ← call (.wgpuDeviceGetQueue device) (env.wgpuDeviceGetQueue device)
  let swapChain ← buildSwapchain env device surface
  coutLine "Creating shader module"
  let shaderModule ← callCpp (.loadShaderModule "shaders.wgsl" device)
    (env.loadShaderModule "shaders.wgsl" device)
  coutHandle "Got shader module: " shaderModule
  coutLine "Creating render pipeline"
  let dflt ← callCpp .createDefaultBindingLayout env.createDefaultBindingLayout
  let layoutDesc := bindGroupLayoutDesc (bindingLayout dflt)
  let bindGroupLayout ← call (.wgpuDeviceCreateBindGroupLayout device layoutDesc)
    (env.wgpuDeviceCreateBindGroupLayout device layoutDesc)
  return {
    inst := inst
    window := window
    surface := surface
    adapter := adapter
    device := device
    queue := queue
    swapChain := swapChain
    shaderModule := shaderModule
    renderPipelineDesc := renderPipelineDesc shaderModule
    vertexBufferLayout := vertexBufferLayout
    colorTarget := colorTarget
    bindGroupLayout := bindGroupLayout
    exitCode := 0 }

/-- A sample result of `Utils::createDefaultBindingLayout`. -/
def entryOk : WGPUBindGroupLayoutEntry where
  binding := 9
  visibility := []
  bufferType := none
  defaults := 0

/-- A sample environment: every call returns a fresh non-null handle. -/
def envOk : Env where
  wgpuCreateInstance := fun _ => 1
  glfwInit := 1
  glfwCreateWindow := fun _ _ _ _ _ => 2
  glfwGetWGPUSurface := fun _ _ => 3
  requestAdapter := fun _ _ => .ok 4
  wgpuAdapterGetLimits := fun _ l =>
    { l with limits := { l.limits with
        minStorageBufferOffsetAlignment := 256
        minUniformBufferOffsetAlignment := 64
        maxVertexAttributes := 16
        rest := fun _ => 8192 } }
  requestDevice := fun _ _ => .ok 5
  wgpuDeviceGetQueue := fun _ => 6
  wgpuDeviceCreateSwapChain := fun _ _ _ => 7
  loadShaderModule := fun _ _ => .ok 8
  createDefaultBindingLayout := .ok entryOk
  wgpuDeviceCreateBindGroupLayout := fun _ _ => 9

end WebGPUError

namespace WebGPUError

/-! ## The paths through `main`

`main` has eleven ways to end: one for each of the six checks that can throw,
one for each of the four `Utils` helpers when it throws itself (the adapter and
device requests, the shader loader and the default-layout helper), and the
normal return.  The definitions below name the trace of each path; the lemma
`main_cases` reduces a property of `main env` to the eleven paths. -/

/-- The instance handle `main` obtains (line 39). -/
def Env.inst (env : Env) : Handle := env.wgpuCreateInstance instanceDesc

/-- The window handle `main` obtains (line 48). -/
def Env.window (env : Env) : Handle := env.glfwCreateWindow 800 600 "WebGPU" nullptr nullptr

/-- The surface handle `main` obtains (line 54). -/
def Env.surface (env : Env) : Handle := env.glfwGetWGPUSurface env.inst env.window

/-- The limits the adapter reports into `supportedLimits` (line 68). -/
def Env.supportedLimits (env : Env) (adapter : Handle) : WGPUSupportedLimits :=
  env.wgpuAdapterGetLimits adapter supportedLimitsInit

/-- The calls up to and including `glfwInit`. -/
def traceInit : List Call :=
  [.wgpuCreateInstance instanceDesc, .glfwInit]

/-- The calls up to and including `glfwCreateWindow`. -/
def traceWindow : List Call :=
  traceInit ++
    [.glfwWindowHint .GLFW_CLIENT_API .GLFW_NO_API,
     .glfwWindowHint .GLFW_RESIZABLE .GLFW_FALSE,
     .glfwCreateWindow 800 600 "WebGPU" nullptr nullptr]

/-- The calls up to and including `glfwGetWGPUSurface`. -/
def traceSurface (env : Env) : List Call :=
  traceWindow ++
    [.cout "Requesting adapter..." none,
     .glfwGetWGPUSurface env.inst env.window]

/-- The calls up to and including `Utils::requestAdapter`. -/
def traceAdapter (env : Env) : List Call :=
  traceSurface env ++ [.requestAdapter env.inst (adapterOptions env.surface)]

/-- The calls up to and including `Utils::requestDevice`. -/
def traceDevice (env : Env) (adapter : Handle) : List Call :=
  traceAdapter env ++
    [.cout "Got adapter: " (some adapter),
     .wgpuAdapterGetLimits adapter supportedLimitsInit,
     .cout "Requesting device..." none,
     .requestDevice adapter (deviceDesc (env.supportedLimits adapter))]

/-- The calls up to and including `wgpuDeviceCreateSwapChain`. -/
def traceSwapChain (env : Env) (adapter device : Handle) : List Call :=
  traceDevice env adapter ++
    [.cout "Got device: " (some device),
     .wgpuDeviceSetUncapturedErrorCallback device nullptr,
     .wgpuDeviceGetQueue device,
     .cout "Building swapchain..." none,
     .wgpuDeviceCreateSwapChain device env.surface swapChainDesc]

/-- The calls up to and including `Utils::loadShaderModule`. -/
def traceShader (env : Env) (adapter device : Handle) : List Call :=
  traceSwapChain env adapter device ++
    [.cout "Got swapchain: " (some (env.wgpuDeviceCreateSwapChain device env.surface swapChainDesc)),
     .cout "Creating shader module" none,
     .loadShaderModule "shaders.wgsl" device]

/-- The calls up to and including `Utils::createDefaultBindingLayout`. -/
def traceDefaultLayout (env : Env) (adapter device shaderModule : Handle) : List Call :=
  traceShader env adapter device ++
    [.cout "Got shader module: " (some shaderModule),
     .cout "Creating render pipeline" none,
     .createDefaultBindingLayout]

/-- The calls of a run that reaches the end of `main`. -/
def traceFull (env : Env) (adapter device shaderModule : Handle)
    (dflt : WGPUBindGroupLayoutEntry) : List Call :=
  traceDefaultLayout env adapter device shaderModule ++
    [.wgpuDeviceCreateBindGroupLayout device (bindGroupLayoutDesc (bindingLayout dflt))]

/-- The frame of a run that reaches the end of `main`. -/
def frameFull (env : Env) (adapter device shaderModule : Handle)
    (dflt : WGPUBindGroupLayoutEntry) : MainFrame where
  inst := env.inst
  window := env.window
  surface := env.surface
  adapter := adapter
  device := device
  queue := env.wgpuDeviceGetQueue device
  swapChain := env.wgpuDeviceCreateSwapChain device env.surface swapChainDesc
  shaderModule := shaderModule
  renderPipelineDesc := renderPipelineDesc shaderModule
  vertexBufferLayout := vertexBufferLayout
  colorTarget := colorTarget
  bindGroupLayout :=
    env.wgpuDeviceCreateBindGroupLayout device (bindGroupLayoutDesc (bindingLayout dflt))
  exitCode := 0

/-! ## Observations on calls and traces -/

/-- The handle that a call returns under `env`: `none` for a call that returns
no handle, and for a helper that throws instead of returning. -/
def returnedHandle (env : Env) : Call → Option Handle
  | .wgpuCreateInstance desc => some (env.wgpuCreateInstance desc)
  | .glfwCreateWindow w h t m s => some (env.glfwCreateWindow w h t m s)
  | .glfwGetWGPUSurface i w => some (env.glfwGetWGPUSurface i w)
  | .requestAdapter i o => (env.requestAdapter i o).toOption
  | .requestDevice a d => (env.requestDevice a d).toOption
  | .wgpuDeviceGetQueue d => some (env.wgpuDeviceGetQueue d)
  | .wgpuDeviceCreateSwapChain d s desc => some (env.wgpuDeviceCreateSwapChain d s desc)
  | .loadShaderModule f d => (env.loadShaderModule f d).toOption
  | .wgpuDeviceCreateBindGroupLayout d desc => some (env.wgpuDeviceCreateBindGroupLayout d desc)
  | _ => none

/-- The calls whose return type is a handle: instance, window, surface,
adapter, device, queue, swapchain, shader module and bind-group layout. -/
def Call.handleProducing : Call → Bool
  | .wgpuCreateInstance _ => true
  | .glfwCreateWindow _ _ _ _ _ => true
  | .glfwGetWGPUSurface _ _ => true
  | .requestAdapter _ _ => true
  | .requestDevice _ _ => true
  | .wgpuDeviceGetQueue _ => true
  | .wgpuDeviceCreateSwapChain _ _ _ => true
  | .loadShaderModule _ _ => true
  | .wgpuDeviceCreateBindGroupLayout _ _ => true
  | _ => false

/-- Whether a call succeeds under `env`: a handle-returning call returns a
non-null handle, `glfwInit` returns a non-zero value, a helper does not throw.
Calls whose result `main` does not read always count as succeeding. -/
def callSucceeds (env : Env) : Call → Bool
  | .glfwInit => env.glfwInit != 0
  | .createDefaultBindingLayout => env.createDefaultBindingLayout.toBool
  | c =>
    if c.handleProducing then
      match returnedHandle env c with
      | some h => h != nullptr
      | none => false
    else true

/-- The calls that `main` follows by a null check of the returned handle. -/
def Call.nullChecked : Call → Bool
  | .glfwCreateWindow _ _ _ _ _ => true
  | .glfwGetWGPUSurface _ _ => true
  | .requestAdapter _ _ => true
  | .requestDevice _ _ => true
  | .wgpuDeviceCreateSwapChain _ _ _ => true
  | _ => false

/-- Whether the text `pat` occurs inside the name `n`. -/
def nameContains (n pat : String) : Bool :=
  n.data.tails.any (fun t => pat.data.isPrefixOf t)

/-- Names of draw calls (`wgpuRenderPassEncoderDraw`, `...DrawIndexed`, ...). -/
def isDrawName (n : String) : Bool := nameContains n "Draw"

/-- Names of frame presentation and frame-loop calls. -/
def isFrameName (n : String) : Bool :=
  nameContains n "Present" || nameContains n "PollEvents" || nameContains n "WaitEvents" ||
    nameContains n "WindowShouldClose" || nameContains n "SwapBuffers"

/-- Names of render-pipeline creation calls. -/
def isRenderPipelineCreationName (n : String) : Bool := nameContains n "CreateRenderPipeline"

/-- Names of release, destroy and teardown calls (`wgpu...Release`,
`wgpu...Destroy`, `wgpu...Drop`, `glfwDestroyWindow`, `glfwTerminate`). -/
def isTeardownName (n : String) : Bool :=
  nameContains n "Release" || nameContains n "Destroy" || nameContains n "Drop" ||
    nameContains n "Terminate"

/-- The names of calls that set-up scaffolding never makes. -/
def isForbiddenName (n : String) : Bool :=
  isDrawName n || isFrameName n || isRenderPipelineCreationName n || isTeardownName n

/-- The steps of `main` whose result is checked before the run continues. -/
inductive CheckedStep where
  | glfwInit
  | glfwCreateWindow
  | glfwGetWGPUSurface
  | requestAdapter
  | requestDevice
  | wgpuDeviceCreateSwapChain
  deriving DecidableEq, Repr

/-- The position of a checked step in program order. -/
def CheckedStep.index : CheckedStep → Nat
  | .glfwInit => 0
  | .glfwCreateWindow => 1
  | .glfwGetWGPUSurface => 2
  | .requestAdapter => 3
  | .requestDevice => 4
  | .wgpuDeviceCreateSwapChain => 5

/-- The message of the exception thrown after a checked step fails
(lines 43, 50, 56, 63, 90 and 27). -/
def CheckedStep.message : CheckedStep → String
  | .glfwInit => "Failed to initialise GLFW"
  | .glfwCreateWindow => "Failed to create GLFW window"
  | .glfwGetWGPUSurface => "Failed to create surface"
  | .requestAdapter => "Failed to find suitable adapter"
  | .requestDevice => "Failed to create device"
  | .wgpuDeviceCreateSwapChain => "Failed to create swapchain"

/-- The name of the function a checked step calls. -/
def CheckedStep.callName : CheckedStep → String
  | .glfwInit => "glfwInit"
  | .glfwCreateWindow => "glfwCreateWindow"
  | .glfwGetWGPUSurface => "glfwGetWGPUSurface"
  | .requestAdapter => "Utils::requestAdapter"
  | .requestDevice => "Utils::requestDevice"
  | .wgpuDeviceCreateSwapChain => "wgpuDeviceCreateSwapChain"

/-- All checked steps, in program order. -/
def CheckedStep.all : List CheckedStep :=
  [.glfwInit, .glfwCreateWindow, .glfwGetWGPUSurface, .requestAdapter, .requestDevice,
   .wgpuDeviceCreateSwapChain]

/-- The adapter `Utils::requestAdapter` returns for the arguments `main`
passes; `none` when it throws. -/
def Env.adapter (env : Env) : Option Handle :=
  (env.requestAdapter env.inst (adapterOptions env.surface)).toOption

/-- The device `Utils::requestDevice` returns for the arguments `main` passes;
`none` when no adapter was returned or the request throws. -/
def Env.device (env : Env) : Option Handle :=
  env.adapter.bind fun a => (env.requestDevice a (deviceDesc (env.supportedLimits a))).toOption

/-- The swapchain `wgpuDeviceCreateSwapChain` returns for the arguments
`buildSwapchain` passes; `none` when no device was returned. -/
def Env.swapChain (env : Env) : Option Handle :=
  env.device.map fun d => env.wgpuDeviceCreateSwapChain d env.surface swapChainDesc

/-- Whether a checked step returns null (for `glfwInit`: zero) in the
environment, given the results of the steps before it. -/
def returnsNull (env : Env) : CheckedStep → Bool
  | .glfwInit => env.glfwInit == 0
  | .glfwCreateWindow => env.window == nullptr
  | .glfwGetWGPUSurface => env.surface == nullptr
  | .requestAdapter => env.adapter == some nullptr
  | .requestDevice => env.device == some nullptr
  | .wgpuDeviceCreateSwapChain => env.swapChain == some nullptr

/-- The byte size of a vertex format: its number of 32-bit float components
times the size of a `float`. -/
def WGPUVertexFormat.byteSize : WGPUVertexFormat → Nat
  | .Float32 => 1 * sizeofFloat
  | .Float32x2 => 2 * sizeofFloat
  | .Float32x3 => 3 * sizeofFloat
  | .Float32x4 => 4 * sizeofFloat

/-- The first byte after a vertex attribute. -/
def WGPUVertexAttribute.endOffset (a : WGPUVertexAttribute) : Nat :=
  a.offset + a.format.byteSize

/-- The device, surface and descriptor of a swapchain creation call. -/
def Call.swapChainRequest : Call → Option (Handle × Handle × WGPUSwapChainDescriptor)
  | .wgpuDeviceCreateSwapChain d s desc => some (d, s, desc)
  | _ => none

/-- The handle-returning calls other than the instance creation: window,
surface, adapter, device, queue, swapchain, shader module, bind-group layout. -/
def Call.afterInstance : Call → Bool
  | .wgpuCreateInstance _ => false
  | c => c.handleProducing

/-- The names of the calls of a run that reaches the end of `main`, in order. -/
def fullNames : List String :=
  ["wgpuCreateInstance", "glfwInit", "glfwWindowHint", "glfwWindowHint", "glfwCreateWindow",
   "std::cout", "glfwGetWGPUSurface", "Utils::requestAdapter", "std::cout",
   "wgpuAdapterGetLimits", "std::cout", "Utils::requestDevice", "std::cout",
   "wgpuDeviceSetUncapturedErrorCallback", "wgpuDeviceGetQueue", "std::cout",
   "wgpuDeviceCreateSwapChain", "std::cout", "std::cout", "Utils::loadShaderModule",
   "std::cout", "std::cout", "Utils::createDefaultBindingLayout",
   "wgpuDeviceCreateBindGroupLayout"]

/-- A sample environment in which the queue retrieval returns null and every
other call succeeds. -/
def envNullQueue : Env :=
  { envOk with wgpuDeviceGetQueue := fun _ => nullptr }

/-- A sample environment in which the bind-group layout creation returns null
and every other call succeeds. -/
def envNullLayout : Env :=
  { envOk with wgpuDeviceCreateBindGroupLayout := fun _ _ => nullptr }

/-- A sample environment in which the surface creation returns null. -/
def envNullSurface : Env :=
  { envOk with glfwGetWGPUSurface := fun _ _ => nullptr }

/-! ## Lemmas on runs -/

theorem call_bind {α β : Type} (c : Call) (r : α) (f : α → Run β) :
    (call c r >>= f) = ⟨c :: (f r).trace, (f r).outcome⟩ := rfl

theorem callCpp_ok_bind {α β : Type} (c : Call) (r : α) (f : α → Run β) :
    (callCpp c (.ok r) >>= f) = ⟨c :: (f r).trace, (f r).outcome⟩ := rfl

theorem callCpp_error_bind {α β : Type} (c : Call) (e : String) (f : α → Run β) :
    (callCpp c (.error e : Except String α) >>= f) = ⟨[c], .error e⟩ := rfl

theorem throw_bind {α β : Type} (msg : String) (f : α → Run β) :
    (throwRuntimeError msg >>= f) = throwRuntimeError msg := rfl

theorem pure_bind_run {α β : Type} (a : α) (f : α → Run β) :
    ((pure a : Run α) >>= f) = f a := by
  show Run.bind (Run.pure a) f = f a
  simp [Run.bind, Run.pure]

theorem coutLine_bind {β : Type} (text : String) (f : Unit → Run β) :
    (coutLine text >>= f) = ⟨.cout text none :: (f ()).trace, (f ()).outcome⟩ := rfl

theorem coutHandle_bind {β : Type} (text : String) (h : Handle) (f : Unit → Run β) :
    (coutHandle text h >>= f) = ⟨.cout text (some h) :: (f ()).trace, (f ()).outcome⟩ := rfl

/-- The run of `buildSwapchain` when the created handle is null. -/
theorem buildSwapchain_null (env : Env) (device surface : Handle)
    (h : env.wgpuDeviceCreateSwapChain device surface swapChainDesc = nullptr) :
    buildSwapchain env device surface =
      ⟨[.cout "Building swapchain..." none,
        .wgpuDeviceCreateSwapChain device surface swapChainDesc],
       .error "Failed to create swapchain"⟩ := by
  unfold buildSwapchain
  simp only [coutLine_bind, call_bind, h, if_true, throw_bind]
  rfl

/-- The run of `buildSwapchain` when the created handle is not null. -/
theorem buildSwapchain_nonnull (env : Env) (device surface : Handle)
    (h : env.wgpuDeviceCreateSwapChain device surface swapChainDesc ≠ nullptr) :
    buildSwapchain env device surface =
      ⟨[.cout "Building swapchain..." none,
        .wgpuDeviceCreateSwapChain device surface swapChainDesc,
        .cout "Got swapchain: "
          (some (env.wgpuDeviceCreateSwapChain device surface swapChainDesc))],
       .ok (env.wgpuDeviceCreateSwapChain device surface swapChainDesc)⟩ := by
  unfold buildSwapchain
  simp only [coutLine_bind, coutHandle_bind, call_bind, h, if_false, pure_bind_run]
  rfl

/-- Case analysis on the way `main` ends: a property of `main env` holds as
soon as it holds of each of the eleven paths. -/
theorem main_cases (env : Env) (P : Run MainFrame → Prop)
    (hInit : env.glfwInit = 0 →
      P ⟨traceInit, .error "Failed to initialise GLFW"⟩)
    (hWindow : env.glfwInit ≠ 0 → env.window = nullptr →
      P ⟨traceWindow, .error "Failed to create GLFW window"⟩)
    (hSurface : env.glfwInit ≠ 0 → env.window ≠ nullptr → env.surface = nullptr →
      P ⟨traceSurface env, .error "Failed to create surface"⟩)
    (hAdapterThrows : ∀ e, env.glfwInit ≠ 0 → env.window ≠ nullptr → env.surface ≠ nullptr →
      env.requestAdapter env.inst (adapterOptions env.surface) = .error e →
      P ⟨traceAdapter env, .error e⟩)
    (hAdapter : env.glfwInit ≠ 0 → env.window ≠ nullptr → env.surface ≠ nullptr →
      env.requestAdapter env.inst (adapterOptions env.surface) = .ok nullptr →
      P ⟨traceAdapter env, .error "Failed to find suitable adapter"⟩)
    (hDeviceThrows : ∀ a e, env.glfwInit ≠ 0 → env.window ≠ nullptr → env.surface ≠ nullptr →
      env.requestAdapter env.inst (adapterOptions env.surface) = .ok a → a ≠ nullptr →
      env.requestDevice a (deviceDesc (env.supportedLimits a)) = .error e →
      P ⟨traceDevice env a, .error e⟩)
    (hDevice : ∀ a, env.glfwInit ≠ 0 → env.window ≠ nullptr → env.surface ≠ nullptr →
      env.requestAdapter env.inst (adapterOptions env.surface) = .ok a → a ≠ nullptr →
      env.requestDevice a (deviceDesc (env.supportedLimits a)) = .ok nullptr →
      P ⟨traceDevice env a, .error "Failed to create device"⟩)
    (hSwapChain : ∀ a d, env.glfwInit ≠ 0 → env.window ≠ nullptr → env.surface ≠ nullptr →
      env.requestAdapter env.inst (adapterOptions env.surface) = .ok a → a ≠ nullptr →
      env.requestDevice a (deviceDesc (env.supportedLimits a)) = .ok d → d ≠ nullptr →
      env.wgpuDeviceCreateSwapChain d env.surface swapChainDesc = nullptr →
      P ⟨traceSwapChain env a d, .error "Failed to create swapchain"⟩)
    (hShaderThrows : ∀ a d e, env.glfwInit ≠ 0 → env.window ≠ nullptr → env.surface ≠ nullptr →
      env.requestAdapter env.inst (adapterOptions env.surface) = .ok a → a ≠ nullptr →
      env.requestDevice a (deviceDesc (env.supportedLimits a)) = .ok d → d ≠ nullptr →
      env.wgpuDeviceCreateSwapChain d env.surface swapChainDesc ≠ nullptr →
      env.loadShaderModule "shaders.wgsl" d = .error e →
      P ⟨traceShader env a d, .error e⟩)
    (hLayoutThrows : ∀ a d m e, env.glfwInit ≠ 0 → env.window ≠ nullptr → env.surface ≠ nullptr →
      env.requestAdapter env.inst (adapterOptions env.surface) = .ok a → a ≠ nullptr →
      env.requestDevice a (deviceDesc (env.supportedLimits a)) = .ok d → d ≠ nullptr →
      env.wgpuDeviceCreateSwapChain d env.surface swapChainDesc ≠ nullptr →
      env.loadShaderModule "shaders.wgsl" d = .ok m →
      env.createDefaultBindingLayout = .error e →
      P ⟨traceDefaultLayout env a d m, .error e⟩)
    (hFull : ∀ a d m l, env.glfwInit ≠ 0 → env.window ≠ nullptr → env.surface ≠ nullptr →
      env.requestAdapter env.inst (adapterOptions env.surface) = .ok a → a ≠ nullptr →
      env.requestDevice a (deviceDesc (env.supportedLimits a)) = .ok d → d ≠ nullptr →
      env.wgpuDeviceCreateSwapChain d env.surface swapChainDesc ≠ nullptr →
      env.loadShaderModule "shaders.wgsl" d = .ok m →
      env.createDefaultBindingLayout = .ok l →
      P ⟨traceFull env a d m l, .ok (frameFull env a d m l)⟩) :
    P (main env) := by
  by_cases h1 : env.glfwInit = 0
  · have hm : main env = ⟨traceInit, .error "Failed to initialise GLFW"⟩ := by
      unfold main
      simp only [call_bind, h1, if_true, throw_bind]
      rfl
    rw [hm]; exact hInit h1
  by_cases h2 : env.window = nullptr
  · have hm : main env = ⟨traceWindow, .error "Failed to create GLFW window"⟩ := by
      unfold main
      unfold Env.window at h2
      simp only [call_bind, h1, h2, if_true, if_false, throw_bind, pure_bind_run]
      rfl
    rw [hm]; exact hWindow h1 h2
  by_cases h3 : env.surface = nullptr
  · have hm : main env = ⟨traceSurface env, .error "Failed to create surface"⟩ := by
      unfold main
      unfold Env.surface Env.inst Env.window at h3
      unfold Env.window at h2
      simp only [call_bind, coutLine_bind, h1, h2, h3, if_true, if_false, throw_bind,
        pure_bind_run]
      rfl
    rw [hm]; exact hSurface h1 h2 h3
  cases h4 : env.requestAdapter env.inst (adapterOptions env.surface) with
  | error e =>
    have hm : main env = ⟨traceAdapter env, .error e⟩ := by
      unfold main
      unfold Env.surface Env.inst Env.window at h3 h4
      unfold Env.window at h2
      simp only [call_bind, coutLine_bind, h1, h2, h3, h4, if_true, if_false, throw_bind,
        pure_bind_run, callCpp_error_bind]
      rfl
    rw [hm]; exact hAdapterThrows e h1 h2 h3 h4
  | ok a =>
  by_cases h5 : a = nullptr
  · have hm : main env = ⟨traceAdapter env, .error "Failed to find suitable adapter"⟩ := by
      unfold main
      unfold Env.surface Env.inst Env.window at h3 h4
      unfold Env.window at h2
      simp only [call_bind, coutLine_bind, h1, h2, h3, h4, h5, if_true, if_false, throw_bind,
        pure_bind_run, callCpp_ok_bind]
      rfl
    rw [hm]; exact hAdapter h1 h2 h3 (h5 ▸ h4)
  cases h6 : env.requestDevice a (deviceDesc (env.supportedLimits a)) with
  | error e =>
    have hm : main env = ⟨traceDevice env a, .error e⟩ := by
      unfold main
      unfold Env.surface Env.inst Env.window at h3 h4
      unfold Env.window at h2
      unfold Env.supportedLimits at h6
      simp only [call_bind, coutLine_bind, coutHandle_bind, h1, h2, h3, h4, h5, h6, if_true,
        if_false, throw_bind, pure_bind_run, callCpp_ok_bind, callCpp_error_bind]
      rfl
    rw [hm]; exact hDeviceThrows a e h1 h2 h3 h4 h5 h6
  | ok d =>
  by_cases h7 : d = nullptr
  · have hm : main env = ⟨traceDevice env a, .error "Failed to create device"⟩ := by
      unfold main
      unfold Env.surface Env.inst Env.window at h3 h4
      unfold Env.window at h2
      unfold Env.supportedLimits at h6
      simp only [call_bind, coutLine_bind, coutHandle_bind, h1, h2, h3, h4, h5, h6, h7, if_true,
        if_false, throw_bind, pure_bind_run, callCpp_ok_bind]
      rfl
    rw [hm]; exact hDevice a h1 h2 h3 h4 h5 (h7 ▸ h6)
  by_cases h8 : env.wgpuDeviceCreateSwapChain d env.surface swapChainDesc = nullptr
  · have hm : main env = ⟨traceSwapChain env a d, .error "Failed to create swapchain"⟩ := by
      unfold main
      unfold Env.surface Env.inst Env.window at h3 h4 h8
      unfold Env.window at h2
      unfold Env.supportedLimits at h6
      simp only [call_bind, coutLine_bind, coutHandle_bind, h1, h2, h3, h4, h5, h6, h7, if_true,
        if_false, throw_bind, pure_bind_run, callCpp_ok_bind, buildSwapchain_null env _ _ h8]
      rfl
    rw [hm]; exact hSwapChain a d h1 h2 h3 h4 h5 h6 h7 h8
  cases h9 : env.loadShaderModule "shaders.wgsl" d with
  | error e =>
    have hm : main env = ⟨traceShader env a d, .error e⟩ := by
      unfold main
      unfold Env.surface Env.inst Env.window at h3 h4 h8
      unfold Env.window at h2
      unfold Env.supportedLimits at h6
      simp only [call_bind, coutLine_bind, coutHandle_bind, h1, h2, h3, h4, h5, h6, h7, h9,
        if_true, if_false, throw_bind, pure_bind_run, callCpp_ok_bind, callCpp_error_bind,
        buildSwapchain_nonnull env _ _ h8]
      rfl
    rw [hm]; exact hShaderThrows a d e h1 h2 h3 h4 h5 h6 h7 h8 h9
  | ok m =>
  cases h10 : env.createDefaultBindingLayout with
  | error e =>
    have hm : main env = ⟨traceDefaultLayout env a d m, .error e⟩ := by
      unfold main
      unfold Env.surface Env.inst Env.window at h3 h4 h8
      unfold Env.window at h2
      unfold Env.supportedLimits at h6
      simp only [call_bind, coutLine_bind, coutHandle_bind, h1, h2, h3, h4, h5, h6, h7, h9, h10,
        if_true, if_false, throw_bind, pure_bind_run, callCpp_ok_bind, callCpp_error_bind,
        buildSwapchain_nonnull env _ _ h8]
      rfl
    rw [hm]; exact hLayoutThrows a d m e h1 h2 h3 h4 h5 h6 h7 h8 h9 h10
  | ok l =>
    have hm : main env = ⟨traceFull env a d m l, .ok (frameFull env a d m l)⟩ := by
      unfold main
      unfold Env.surface Env.inst Env.window at h3 h4 h8
      unfold Env.window at h2
      unfold Env.supportedLimits at h6
      simp only [call_bind, coutLine_bind, coutHandle_bind, h1, h2, h3, h4, h5, h6, h7, h9, h10,
        if_true, if_false, throw_bind, pure_bind_run, callCpp_ok_bind, callCpp_error_bind,
        buildSwapchain_nonnull env _ _ h8]
      rfl
    rw [hm]; exact hFull a d m l h1 h2 h3 h4 h5 h6 h7 h8 h9 h10


/-! ## `buildSwapchain` -/

/-- C1: `buildSwapchain` returns a handle or aborts.  When
`wgpuDeviceCreateSwapChain` yields a non-null handle, `buildSwapchain` returns
exactly that handle; it raises the runtime error "Failed to create swapchain"
if and only if the created handle is null, it raises no other error, and when
the handle is null it returns nothing. -/
theorem buildSwapchain_returns_or_aborts (env : Env) (device surface : Handle) :
    (env.wgpuDeviceCreateSwapChain device surface swapChainDesc ≠ nullptr →
      (buildSwapchain env device surface).outcome =
        .ok (env.wgpuDeviceCreateSwapChain device surface swapChainDesc)) ∧
    ((buildSwapchain env device surface).outcome = .error "Failed to create swapchain" ↔
      env.wgpuDeviceCreateSwapChain device surface swapChainDesc = nullptr) ∧
    ((∃ msg, (buildSwapchain env device surface).outcome = .error msg) ↔
      env.wgpuDeviceCreateSwapChain device surface swapChainDesc = nullptr) ∧
    (env.wgpuDeviceCreateSwapChain device surface swapChainDesc = nullptr →
      ∀ r, (buildSwapchain env device surface).outcome ≠ .ok r) := by
  by_cases h : env.wgpuDeviceCreateSwapChain device surface swapChainDesc = nullptr
  · rw [buildSwapchain_null env device surface h]
    simp [h]
  · rw [buildSwapchain_nonnull env device surface h]
    simp [h]

/-- Witness of C1 in the sample environment: the created handle `7` is not
null and is returned. -/
theorem buildSwapchain_returns_or_aborts_witness :
    envOk.wgpuDeviceCreateSwapChain 5 3 swapChainDesc ≠ nullptr ∧
      (buildSwapchain envOk 5 3).outcome = .ok 7 :=
  ⟨by decide, (buildSwapchain_returns_or_aborts envOk 5 3).1 (by decide)⟩

/-- C2: `buildSwapchain` makes exactly one call to `wgpuDeviceCreateSwapChain`,
on every path, passing the given device and surface unchanged together with a
descriptor whose fields are the hardcoded values (width 800, height 600,
format BGRA8Unorm, present mode Fifo, usage RenderAttachment, label
"My Swapchain", nextInChain null), whatever the inputs are. -/
theorem buildSwapchain_single_call (env : Env) (device surface : Handle) :
    (buildSwapchain env device surface).trace.filterMap Call.swapChainRequest =
      [(device, surface,
        { nextInChain := 0
          label := "My Swapchain"
          usage := WGPUTextureUsage.RenderAttachment
          format := WGPUTextureFormat.BGRA8Unorm
          width := 800
          height := 600
          presentMode := WGPUPresentMode.Fifo })] ∧
    ((buildSwapchain env device surface).trace.map Call.name).count
      "wgpuDeviceCreateSwapChain" = 1 := by
  by_cases h : env.wgpuDeviceCreateSwapChain device surface swapChainDesc = nullptr
  · rw [buildSwapchain_null env device surface h]
    refine ⟨?_, ?_⟩
    · simp [Call.swapChainRequest, swapChainDesc, nullptr]
    · simp [Call.name]
  · rw [buildSwapchain_nonnull env device surface h]
    refine ⟨?_, ?_⟩
    · simp [Call.swapChainRequest, swapChainDesc, nullptr]
    · simp [Call.name]

/-! ## The descriptors `main` assembles -/

/-- The trace of the sample run, spelled out. -/
theorem envOk_trace : (main envOk).trace = traceFull envOk 4 5 8 entryOk := rfl

/-- Every device request in a trace of `main` passes the descriptor built from
the limits that the adapter of that request reported. -/
theorem requestDevice_mem (env : Env) (adapter : Handle) (desc : WGPUDeviceDescriptor)
    (h : Call.requestDevice adapter desc ∈ (main env).trace) :
    desc = deviceDesc (env.supportedLimits adapter) := by
  revert h
  apply main_cases env
    (fun r => Call.requestDevice adapter desc ∈ r.trace →
      desc = deviceDesc (env.supportedLimits adapter))
  · intro _ h; simp [traceInit] at h
  · intro _ _ h; simp [traceWindow, traceInit] at h
  · intro _ _ _ h; simp [traceSurface, traceWindow, traceInit] at h
  · intro e _ _ _ _ h; simp [traceAdapter, traceSurface, traceWindow, traceInit] at h
  · intro _ _ _ _ h; simp [traceAdapter, traceSurface, traceWindow, traceInit] at h
  · intro a e _ _ _ _ _ _ h
    simp [traceDevice, traceAdapter, traceSurface, traceWindow, traceInit] at h
    rw [h.1, h.2]
  · intro a _ _ _ _ _ _ h
    simp [traceDevice, traceAdapter, traceSurface, traceWindow, traceInit] at h
    rw [h.1, h.2]
  · intro a d _ _ _ _ _ _ _ _ h
    simp [traceSwapChain, traceDevice, traceAdapter, traceSurface, traceWindow, traceInit] at h
    rw [h.1, h.2]
  · intro a d e _ _ _ _ _ _ _ _ _ h
    simp [traceShader, traceSwapChain, traceDevice, traceAdapter, traceSurface, traceWindow,
      traceInit] at h
    rw [h.1, h.2]
  · intro a d m e _ _ _ _ _ _ _ _ _ _ h
    simp [traceDefaultLayout, traceShader, traceSwapChain, traceDevice, traceAdapter,
      traceSurface, traceWindow, traceInit] at h
    rw [h.1, h.2]
  · intro a d m l _ _ _ _ _ _ _ _ _ _ h
    simp [traceFull, traceDefaultLayout, traceShader, traceSwapChain, traceDevice, traceAdapter,
      traceSurface, traceWindow, traceInit] at h
    rw [h.1, h.2]

/-- C8: whatever limits the adapter reports, the required limits `main`
passes to `Utils::requestDevice` copy the adapter's
minStorageBufferOffsetAlignment and minUniformBufferOffsetAlignment, have
maxVertexAttributes 2, maxVertexBuffers 1, maxBufferSize 80,
maxInterStageShaderComponents 3, maxBindGroups 1,
maxUniformBuffersPerShaderStage 1, maxUniformBufferBindingSize 64, and every
other limit is zero. -/
theorem main_required_limits (env : Env) (adapter : Handle) (desc : WGPUDeviceDescriptor)
    (h : Call.requestDevice adapter desc ∈ (main env).trace) :
    desc.requiredLimits.limits.minStorageBufferOffsetAlignment =
        (env.wgpuAdapterGetLimits adapter supportedLimitsInit).limits.minStorageBufferOffsetAlignment ∧
      desc.requiredLimits.limits.minUniformBufferOffsetAlignment =
        (env.wgpuAdapterGetLimits adapter supportedLimitsInit).limits.minUniformBufferOffsetAlignment ∧
      desc.requiredLimits.limits.maxVertexAttributes = 2 ∧
      desc.requiredLimits.limits.maxVertexBuffers = 1 ∧
      desc.requiredLimits.limits.maxBufferSize = 80 ∧
      desc.requiredLimits.limits.maxInterStageShaderComponents = 3 ∧
      desc.requiredLimits.limits.maxBindGroups = 1 ∧
      desc.requiredLimits.limits.maxUniformBuffersPerShaderStage = 1 ∧
      desc.requiredLimits.limits.maxUniformBufferBindingSize = 64 ∧
      ∀ field, desc.requiredLimits.limits.rest field = 0 := by
  rw [requestDevice_mem env adapter desc h]
  simp [deviceDesc, requiredLimits, Env.supportedLimits, WGPULimits.zero, sizeofFloat]

/-- Witness of C8: in the sample run the adapter `4` reports an alignment of
256 for storage buffers, 16 vertex attributes and 8192 for every field `main`
does not name; the device request copies the alignment and nothing else. -/
theorem main_required_limits_witness :
    Call.requestDevice 4 (deviceDesc (envOk.supportedLimits 4)) ∈ (main envOk).trace ∧
      (envOk.supportedLimits 4).limits.maxVertexAttributes = 16 ∧
      (envOk.supportedLimits 4).limits.rest "maxTextureDimension2D" = 8192 ∧
      (deviceDesc (envOk.supportedLimits 4)).requiredLimits.limits.minStorageBufferOffsetAlignment
        = 256 ∧
      (deviceDesc (envOk.supportedLimits 4)).requiredLimits.limits.maxVertexAttributes = 2 ∧
      (deviceDesc (envOk.supportedLimits 4)).requiredLimits.limits.rest "maxTextureDimension2D"
        = 0 := by
  have hmem : Call.requestDevice 4 (deviceDesc (envOk.supportedLimits 4)) ∈ (main envOk).trace := by
    rw [envOk_trace]
    simp [traceFull, traceDefaultLayout, traceShader, traceSwapChain, traceDevice]
  have h := main_required_limits envOk 4 (deviceDesc (envOk.supportedLimits 4)) hmem
  exact ⟨hmem, rfl, rfl, h.1, h.2.2.1, h.2.2.2.2.2.2.2.2.2 "maxTextureDimension2D"⟩

/-- A run of `main` that returns went down the full path: the adapter, device,
shader module and default layout were returned, and the frame is the one of
the full path. -/
theorem main_ok (env : Env) (f : MainFrame) (h : (main env).outcome = .ok f) :
    ∃ a d m l,
      env.requestAdapter env.inst (adapterOptions env.surface) = .ok a ∧
      env.requestDevice a (deviceDesc (env.supportedLimits a)) = .ok d ∧
      env.loadShaderModule "shaders.wgsl" d = .ok m ∧
      env.createDefaultBindingLayout = .ok l ∧
      (main env).trace = traceFull env a d m l ∧ f = frameFull env a d m l := by
  revert h
  apply main_cases env
    (fun r => r.outcome = .ok f → ∃ a d m l,
      env.requestAdapter env.inst (adapterOptions env.surface) = .ok a ∧
      env.requestDevice a (deviceDesc (env.supportedLimits a)) = .ok d ∧
      env.loadShaderModule "shaders.wgsl" d = .ok m ∧
      env.createDefaultBindingLayout = .ok l ∧
      r.trace = traceFull env a d m l ∧ f = frameFull env a d m l)
  · intro _ h; simp at h
  · intro _ _ h; simp at h
  · intro _ _ _ h; simp at h
  · intro e _ _ _ _ h; simp at h
  · intro _ _ _ _ h; simp at h
  · intro a e _ _ _ _ _ _ h; simp at h
  · intro a _ _ _ _ _ _ h; simp at h
  · intro a d _ _ _ _ _ _ _ _ h; simp at h
  · intro a d e _ _ _ _ _ _ _ _ _ h; simp at h
  · intro a d m e _ _ _ _ _ _ _ _ _ _ h; simp at h
  · intro a d m l _ _ _ h4 _ h6 _ _ h9 h10 h
    simp only [Except.ok.injEq] at h
    exact ⟨a, d, m, l, h4, h6, h9, h10, rfl, h.symm⟩

/-- C9: with `sizeof(float) = 4`, the vertex buffer layout `main` builds is a
tight packing: attribute 0 (Float32x2, 8 bytes) occupies bytes 0 to 8,
attribute 1 (Float32x3, 12 bytes) occupies bytes 8 to 20, the two ranges do
not overlap, each lies within the array stride, the array stride 20 is the sum
of the attribute sizes, and attributeCount is the number of attributes, 2. -/
theorem main_vertex_layout_tight (env : Env) (f : MainFrame)
    (h : (main env).outcome = .ok f) :
    sizeofFloat = 4 ∧
      f.renderPipelineDesc.vertex.buffers = f.vertexBufferLayout ∧
      f.vertexBufferLayout.attributes.map
          (fun a => (a.format, a.format.byteSize, a.offset, a.endOffset)) =
        [(WGPUVertexFormat.Float32x2, 8, 0, 8), (WGPUVertexFormat.Float32x3, 12, 8, 20)] ∧
      f.vertexBufferLayout.attributes.Pairwise (fun a b => a.endOffset ≤ b.offset) ∧
      (∀ a ∈ f.vertexBufferLayout.attributes, a.endOffset ≤ f.vertexBufferLayout.arrayStride) ∧
      f.vertexBufferLayout.arrayStride = 20 ∧
      f.vertexBufferLayout.arrayStride =
        (f.vertexBufferLayout.attributes.map (fun a => a.format.byteSize)).sum ∧
      f.vertexBufferLayout.attributeCount = f.vertexBufferLayout.attributes.length ∧
      f.vertexBufferLayout.attributeCount = 2 := by
  obtain ⟨a, d, m, l, -, -, -, -, -, hf⟩ := main_ok env f h
  subst hf
  simp only [frameFull, renderPipelineDesc]
  decide

/-- Witness of C9: the sample run returns, and its vertex buffer has stride 20
and two attributes. -/
theorem main_vertex_layout_tight_witness :
    (main envOk).outcome = .ok (frameFull envOk 4 5 8 entryOk) ∧
      (frameFull envOk 4 5 8 entryOk).vertexBufferLayout.arrayStride = 20 ∧
      (frameFull envOk 4 5 8 entryOk).vertexBufferLayout.attributeCount = 2 :=
  ⟨rfl, (main_vertex_layout_tight envOk _ rfl).2.2.2.2.2.1,
    (main_vertex_layout_tight envOk _ rfl).2.2.2.2.2.2.2.2⟩

/-- Every window creation in a trace of `main` asks for an 800 x 600 window. -/
theorem glfwCreateWindow_mem (env : Env) (w h : Nat) (title : String) (monitor share : Handle)
    (hmem : Call.glfwCreateWindow w h title monitor share ∈ (main env).trace) :
    w = 800 ∧ h = 600 := by
  revert hmem
  apply main_cases env
    (fun r => Call.glfwCreateWindow w h title monitor share ∈ r.trace → w = 800 ∧ h = 600)
  · intro _ h; simp [traceInit] at h
  · intro _ _ h; simp [traceWindow, traceInit] at h; exact ⟨h.1, h.2.1⟩
  · intro _ _ _ h; simp [traceSurface, traceWindow, traceInit] at h; exact ⟨h.1, h.2.1⟩
  · intro e _ _ _ _ h
    simp [traceAdapter, traceSurface, traceWindow, traceInit] at h; exact ⟨h.1, h.2.1⟩
  · intro _ _ _ _ h
    simp [traceAdapter, traceSurface, traceWindow, traceInit] at h; exact ⟨h.1, h.2.1⟩
  · intro a e _ _ _ _ _ _ h
    simp [traceDevice, traceAdapter, traceSurface, traceWindow, traceInit] at h
    exact ⟨h.1, h.2.1⟩
  · intro a _ _ _ _ _ _ h
    simp [traceDevice, traceAdapter, traceSurface, traceWindow, traceInit] at h
    exact ⟨h.1, h.2.1⟩
  · intro a d _ _ _ _ _ _ _ _ h
    simp [traceSwapChain, traceDevice, traceAdapter, traceSurface, traceWindow, traceInit] at h
    exact ⟨h.1, h.2.1⟩
  · intro a d e _ _ _ _ _ _ _ _ _ h
    simp [traceShader, traceSwapChain, traceDevice, traceAdapter, traceSurface, traceWindow,
      traceInit] at h
    exact ⟨h.1, h.2.1⟩
  · intro a d m e _ _ _ _ _ _ _ _ _ _ h
    simp [traceDefaultLayout, traceShader, traceSwapChain, traceDevice, traceAdapter,
      traceSurface, traceWindow, traceInit] at h
    exact ⟨h.1, h.2.1⟩
  · intro a d m l _ _ _ _ _ _ _ _ _ _ h
    simp [traceFull, traceDefaultLayout, traceShader, traceSwapChain, traceDevice, traceAdapter,
      traceSurface, traceWindow, traceInit] at h
    exact ⟨h.1, h.2.1⟩

/-- Every swapchain creation in a trace of `main` passes the descriptor of
`buildSwapchain`. -/
theorem wgpuDeviceCreateSwapChain_mem (env : Env) (device surface : Handle)
    (desc : WGPUSwapChainDescriptor)
    (hmem : Call.wgpuDeviceCreateSwapChain device surface desc ∈ (main env).trace) :
    desc = swapChainDesc := by
  revert hmem
  apply main_cases env
    (fun r => Call.wgpuDeviceCreateSwapChain device surface desc ∈ r.trace →
      desc = swapChainDesc)
  · intro _ h; simp [traceInit] at h
  · intro _ _ h; simp [traceWindow, traceInit] at h
  · intro _ _ _ h; simp [traceSurface, traceWindow, traceInit] at h
  · intro e _ _ _ _ h; simp [traceAdapter, traceSurface, traceWindow, traceInit] at h
  · intro _ _ _ _ h; simp [traceAdapter, traceSurface, traceWindow, traceInit] at h
  · intro a e _ _ _ _ _ _ h
    simp [traceDevice, traceAdapter, traceSurface, traceWindow, traceInit] at h
  · intro a _ _ _ _ _ _ h
    simp [traceDevice, traceAdapter, traceSurface, traceWindow, traceInit] at h
  · intro a d _ _ _ _ _ _ _ _ h
    simp [traceSwapChain, traceDevice, traceAdapter, traceSurface, traceWindow, traceInit] at h
    exact h.2.2
  · intro a d e _ _ _ _ _ _ _ _ _ h
    simp [traceShader, traceSwapChain, traceDevice, traceAdapter, traceSurface, traceWindow,
      traceInit] at h
    exact h.2.2
  · intro a d m e _ _ _ _ _ _ _ _ _ _ h
    simp [traceDefaultLayout, traceShader, traceSwapChain, traceDevice, traceAdapter,
      traceSurface, traceWindow, traceInit] at h
    exact h.2.2
  · intro a d m l _ _ _ _ _ _ _ _ _ _ h
    simp [traceFull, traceDefaultLayout, traceShader, traceSwapChain, traceDevice, traceAdapter,
      traceSurface, traceWindow, traceInit] at h
    exact h.2.2

/-- C10: the hardcoded presentation parameters agree.  The width and height of
the swapchain descriptor `buildSwapchain` passes (800 x 600) equal the width
and height `main` requests for the GLFW window, and the swapchain's texture
format equals the format of the colour target state `main` builds (both
BGRA8Unorm). -/
theorem main_presentation_consistent (env : Env) (w h : Nat) (title : String)
    (monitor share device surface : Handle) (desc : WGPUSwapChainDescriptor)
    (hwin : Call.glfwCreateWindow w h title monitor share ∈ (main env).trace)
    (hswap : Call.wgpuDeviceCreateSwapChain device surface desc ∈ (main env).trace) :
    desc.width = w ∧ desc.height = h ∧ desc.width = 800 ∧ desc.height = 600 ∧
      desc.format = WGPUTextureFormat.BGRA8Unorm ∧
      colorTarget.format = desc.format ∧
      ∀ f, (main env).outcome = .ok f → f.colorTarget.format = desc.format := by
  obtain ⟨hw, hh⟩ := glfwCreateWindow_mem env w h title monitor share hwin
  have hd := wgpuDeviceCreateSwapChain_mem env device surface desc hswap
  subst hw hh hd
  refine ⟨rfl, rfl, rfl, rfl, rfl, rfl, ?_⟩
  intro f hret
  obtain ⟨a, d, m, l, -, -, -, -, -, hf⟩ := main_ok env f hret
  subst hf
  rfl

/-- Witness of C10 in the sample run: the window and the swapchain are both
800 x 600, and the colour target has the swapchain's format, which is neither
RGBA8Unorm nor the undefined format. -/
theorem main_presentation_consistent_witness :
    Call.glfwCreateWindow 800 600 "WebGPU" 0 0 ∈ (main envOk).trace ∧
      Call.wgpuDeviceCreateSwapChain 5 3 swapChainDesc ∈ (main envOk).trace ∧
      (main envOk).outcome = .ok (frameFull envOk 4 5 8 entryOk) ∧
      swapChainDesc.width = 800 ∧ swapChainDesc.height = 600 ∧
      (frameFull envOk 4 5 8 entryOk).colorTarget.format = swapChainDesc.format ∧
      swapChainDesc.format ≠ WGPUTextureFormat.RGBA8Unorm ∧
      swapChainDesc.format ≠ WGPUTextureFormat.Undefined := by
  have hwin : Call.glfwCreateWindow 800 600 "WebGPU" 0 0 ∈ (main envOk).trace := by
    rw [envOk_trace]
    simp [traceFull, traceDefaultLayout, traceShader, traceSwapChain, traceDevice, traceAdapter,
      traceSurface, traceWindow, traceInit, nullptr]
  have hswap : Call.wgpuDeviceCreateSwapChain 5 3 swapChainDesc ∈ (main envOk).trace := by
    rw [envOk_trace]
    simp [traceFull, traceDefaultLayout, traceShader, traceSwapChain, Env.surface, envOk]
  have h := main_presentation_consistent envOk 800 600 "WebGPU" 0 0 5 3 swapChainDesc hwin hswap
  exact ⟨hwin, hswap, rfl, h.2.2.1, h.2.2.2.1, h.2.2.2.2.2.2 _ rfl, by decide, by decide⟩

/-! ## The shape of the trace -/

/-- On every path the names of the calls made are an initial part of the names
of the full path. -/
theorem main_names_initial (env : Env) : (main env).trace.map Call.name <+: fullNames := by
  apply main_cases env (fun r => r.trace.map Call.name <+: fullNames)
  · intro _; simp only [traceInit, List.map, Call.name]; decide
  · intro _ _; simp only [traceWindow, traceInit, List.map, List.cons_append, List.nil_append,
      Call.name]; decide
  · intro _ _ _; simp only [traceSurface, traceWindow, traceInit, List.map, List.cons_append,
      List.nil_append, Call.name]; decide
  · intro e _ _ _ _; simp only [traceAdapter, traceSurface, traceWindow, traceInit, List.map,
      List.cons_append, List.nil_append, Call.name]; decide
  · intro _ _ _ _; simp only [traceAdapter, traceSurface, traceWindow, traceInit, List.map,
      List.cons_append, List.nil_append, Call.name]; decide
  · intro a e _ _ _ _ _ _; simp only [traceDevice, traceAdapter, traceSurface, traceWindow,
      traceInit, List.map, List.cons_append, List.nil_append, Call.name]; decide
  · intro a _ _ _ _ _ _; simp only [traceDevice, traceAdapter, traceSurface, traceWindow,
      traceInit, List.map, List.cons_append, List.nil_append, Call.name]; decide
  · intro a d _ _ _ _ _ _ _ _; simp only [traceSwapChain, traceDevice, traceAdapter,
      traceSurface, traceWindow, traceInit, List.map, List.cons_append, List.nil_append,
      Call.name]; decide
  · intro a d e _ _ _ _ _ _ _ _ _; simp only [traceShader, traceSwapChain, traceDevice,
      traceAdapter, traceSurface, traceWindow, traceInit, List.map, List.cons_append,
      List.nil_append, Call.name]; decide
  · intro a d m e _ _ _ _ _ _ _ _ _ _; simp only [traceDefaultLayout, traceShader,
      traceSwapChain, traceDevice, traceAdapter, traceSurface, traceWindow, traceInit, List.map,
      List.cons_append, List.nil_append, Call.name]; decide
  · intro a d m l _ _ _ _ _ _ _ _ _ _; simp only [traceFull, traceDefaultLayout, traceShader,
      traceSwapChain, traceDevice, traceAdapter, traceSurface, traceWindow, traceInit, List.map,
      List.cons_append, List.nil_append, Call.name]; decide

/-- C5: in every run of `main`, successful or failing at any step, no call in
the trace is a draw call, a frame-presentation or frame-loop call, a
render-pipeline creation call, or a release, destroy or teardown call: every
call is one of the functions `main.cpp` names.  In particular no call of the
trace releases a handle, so none of the handles obtained is ever released. -/
theorem main_never_draws_or_releases (env : Env) (c : Call) (h : c ∈ (main env).trace) :
    c.name ∈ fullNames ∧ isDrawName c.name = false ∧ isFrameName c.name = false ∧
      isRenderPipelineCreationName c.name = false ∧ isTeardownName c.name = false ∧
      ∀ function args, c ≠ Call.api function args := by
  have hname : c.name ∈ fullNames :=
    (main_names_initial env).subset (List.mem_map_of_mem Call.name h)
  have hall : ∀ n ∈ fullNames, isDrawName n = false ∧ isFrameName n = false ∧
      isRenderPipelineCreationName n = false ∧ isTeardownName n = false := by decide
  obtain ⟨h1, h2, h3, h4⟩ := hall c.name hname
  refine ⟨hname, h1, h2, h3, h4, ?_⟩
  intro function args hc
  subst hc
  revert h
  apply main_cases env (fun r => Call.api function args ∈ r.trace → False)
  · intro _ h; simp [traceInit] at h
  · intro _ _ h; simp [traceWindow, traceInit] at h
  · intro _ _ _ h; simp [traceSurface, traceWindow, traceInit] at h
  · intro e _ _ _ _ h; simp [traceAdapter, traceSurface, traceWindow, traceInit] at h
  · intro _ _ _ _ h; simp [traceAdapter, traceSurface, traceWindow, traceInit] at h
  · intro a e _ _ _ _ _ _ h
    simp [traceDevice, traceAdapter, traceSurface, traceWindow, traceInit] at h
  · intro a _ _ _ _ _ _ h
    simp [traceDevice, traceAdapter, traceSurface, traceWindow, traceInit] at h
  · intro a d _ _ _ _ _ _ _ _ h
    simp [traceSwapChain, traceDevice, traceAdapter, traceSurface, traceWindow, traceInit] at h
  · intro a d e _ _ _ _ _ _ _ _ _ h
    simp [traceShader, traceSwapChain, traceDevice, traceAdapter, traceSurface, traceWindow,
      traceInit] at h
  · intro a d m e _ _ _ _ _ _ _ _ _ _ h
    simp [traceDefaultLayout, traceShader, traceSwapChain, traceDevice, traceAdapter,
      traceSurface, traceWindow, traceInit] at h
  · intro a d m l _ _ _ _ _ _ _ _ _ _ h
    simp [traceFull, traceDefaultLayout, traceShader, traceSwapChain, traceDevice, traceAdapter,
      traceSurface, traceWindow, traceInit] at h

/-- Witness of C5: the bind-group layout creation of the sample run is no
teardown call, whereas calls that release the swapchain `7`, draw, present the
swapchain, create a render pipeline on the device `5` or destroy the window
`2` are calls of the kinds excluded. -/
theorem main_never_draws_or_releases_witness :
    Call.wgpuDeviceCreateBindGroupLayout 5 (bindGroupLayoutDesc (bindingLayout entryOk)) ∈
        (main envOk).trace ∧
      isTeardownName
        (Call.wgpuDeviceCreateBindGroupLayout 5
          (bindGroupLayoutDesc (bindingLayout entryOk))).name = false ∧
      isTeardownName (Call.api "wgpuSwapChainRelease" [7]).name = true ∧
      isTeardownName (Call.api "glfwDestroyWindow" [2]).name = true ∧
      isDrawName (Call.api "wgpuRenderPassEncoderDraw" []).name = true ∧
      isFrameName (Call.api "wgpuSwapChainPresent" [7]).name = true ∧
      isRenderPipelineCreationName (Call.api "wgpuDeviceCreateRenderPipeline" [5]).name = true := by
  have hmem : Call.wgpuDeviceCreateBindGroupLayout 5 (bindGroupLayoutDesc (bindingLayout entryOk))
      ∈ (main envOk).trace := by
    rw [envOk_trace]
    simp [traceFull]
  exact ⟨hmem, (main_never_draws_or_releases envOk _ hmem).2.2.2.2.1, by decide, by decide,
    by decide, by decide, by decide⟩

/-! ## Failing fast -/

/-- C7: `main` fails fast with no retry.  If step `k` is the first of the
checked steps (glfwInit, glfwCreateWindow, glfwGetWGPUSurface,
Utils::requestAdapter, Utils::requestDevice, wgpuDeviceCreateSwapChain) to
return null or false, then `main` raises the runtime error with step `k`'s own
message, the call of step `k` was made exactly once and is the last call of
the run, and no call of a later checked step is made. -/
theorem main_fails_fast (env : Env) (k : CheckedStep)
    (hk : returnsNull env k = true)
    (hfirst : ∀ j : CheckedStep, j.index < k.index → returnsNull env j = false) :
    (main env).outcome = .error k.message ∧
      ((main env).trace.map Call.name).count k.callName = 1 ∧
      ((main env).trace.map Call.name).getLast? = some k.callName ∧
      ∀ j : CheckedStep, k.index < j.index →
        ((main env).trace.map Call.name).count j.callName = 0 := by
  have h0 := hfirst .glfwInit
  have h1 := hfirst .glfwCreateWindow
  have h2 := hfirst .glfwGetWGPUSurface
  have h3 := hfirst .requestAdapter
  have h4 := hfirst .requestDevice
  clear hfirst
  revert hk h0 h1 h2 h3 h4
  apply main_cases env (fun r =>
    returnsNull env k = true →
    (CheckedStep.glfwInit.index < k.index → returnsNull env .glfwInit = false) →
    (CheckedStep.glfwCreateWindow.index < k.index → returnsNull env .glfwCreateWindow = false) →
    (CheckedStep.glfwGetWGPUSurface.index < k.index →
      returnsNull env .glfwGetWGPUSurface = false) →
    (CheckedStep.requestAdapter.index < k.index → returnsNull env .requestAdapter = false) →
    (CheckedStep.requestDevice.index < k.index → returnsNull env .requestDevice = false) →
    r.outcome = .error k.message ∧
      (r.trace.map Call.name).count k.callName = 1 ∧
      (r.trace.map Call.name).getLast? = some k.callName ∧
      ∀ j : CheckedStep, k.index < j.index → (r.trace.map Call.name).count j.callName = 0)
  · intro g0 hk h0 h1 h2 h3 h4
    cases k <;>
      simp_all [returnsNull, CheckedStep.index, CheckedStep.message, CheckedStep.callName,
        Env.adapter, Env.device, Env.swapChain, Except.toOption, Call.name,
        traceInit]
    all_goals (intro j; cases j <;> simp)
  · intro g0 g1 hk h0 h1 h2 h3 h4
    cases k <;>
      simp_all [returnsNull, CheckedStep.index, CheckedStep.message, CheckedStep.callName,
        Env.adapter, Env.device, Env.swapChain, Except.toOption, Call.name,
        traceWindow, traceInit]
    all_goals (intro j; cases j <;> simp)
  · intro g0 g1 g2 hk h0 h1 h2 h3 h4
    cases k <;>
      simp_all [returnsNull, CheckedStep.index, CheckedStep.message, CheckedStep.callName,
        Env.adapter, Env.device, Env.swapChain, Except.toOption, Call.name,
        traceSurface, traceWindow, traceInit]
    all_goals (intro j; cases j <;> simp)
  · intro e g0 g1 g2 g3 hk h0 h1 h2 h3 h4
    cases k <;>
      simp_all [returnsNull, CheckedStep.index, CheckedStep.message, CheckedStep.callName,
        Env.adapter, Env.device, Env.swapChain, Except.toOption, Call.name,
        traceAdapter, traceSurface, traceWindow, traceInit]
  · intro g0 g1 g2 g3 hk h0 h1 h2 h3 h4
    cases k <;>
      simp_all [returnsNull, CheckedStep.index, CheckedStep.message, CheckedStep.callName,
        Env.adapter, Env.device, Env.swapChain, Except.toOption, Call.name,
        traceAdapter, traceSurface, traceWindow, traceInit]
    all_goals (intro j; cases j <;> simp)
  · intro a e g0 g1 g2 g3 g4 g5 hk h0 h1 h2 h3 h4
    cases k <;>
      simp_all [returnsNull, CheckedStep.index, CheckedStep.message, CheckedStep.callName,
        Env.adapter, Env.device, Env.swapChain, Except.toOption, Call.name,
        traceDevice, traceAdapter, traceSurface, traceWindow, traceInit]
  · intro a g0 g1 g2 g3 g4 g5 hk h0 h1 h2 h3 h4
    cases k <;>
      simp_all [returnsNull, CheckedStep.index, CheckedStep.message, CheckedStep.callName,
        Env.adapter, Env.device, Env.swapChain, Except.toOption, Call.name,
        traceDevice, traceAdapter, traceSurface, traceWindow, traceInit]
    all_goals (intro j; cases j <;> simp)
  · intro a d g0 g1 g2 g3 g4 g5 g6 g7 hk h0 h1 h2 h3 h4
    cases k <;>
      simp_all [returnsNull, CheckedStep.index, CheckedStep.message, CheckedStep.callName,
        Env.adapter, Env.device, Env.swapChain, Except.toOption, Call.name,
        traceSwapChain, traceDevice, traceAdapter, traceSurface, traceWindow, traceInit]
    all_goals (intro j; cases j <;> simp)
  · intro a d e g0 g1 g2 g3 g4 g5 g6 g7 g8 hk h0 h1 h2 h3 h4
    cases k <;>
      simp_all [returnsNull, CheckedStep.index, CheckedStep.message, CheckedStep.callName,
        Env.adapter, Env.device, Env.swapChain, Except.toOption, Call.name,
        traceShader, traceSwapChain, traceDevice, traceAdapter, traceSurface, traceWindow,
        traceInit]
  · intro a d m e g0 g1 g2 g3 g4 g5 g6 g7 g8 g9 hk h0 h1 h2 h3 h4
    cases k <;>
      simp_all [returnsNull, CheckedStep.index, CheckedStep.message, CheckedStep.callName,
        Env.adapter, Env.device, Env.swapChain, Except.toOption, Call.name,
        traceDefaultLayout, traceShader, traceSwapChain, traceDevice, traceAdapter,
        traceSurface, traceWindow, traceInit]
  · intro a d m l g0 g1 g2 g3 g4 g5 g6 g7 g8 g9 hk h0 h1 h2 h3 h4
    cases k <;>
      simp_all [returnsNull, CheckedStep.index, CheckedStep.message, CheckedStep.callName,
        Env.adapter, Env.device, Env.swapChain, Except.toOption, Call.name,
        traceFull, traceDefaultLayout, traceShader, traceSwapChain, traceDevice,
        traceAdapter, traceSurface, traceWindow, traceInit]

/-- Witness of C7: when the surface creation is the first step to return null,
`main` throws "Failed to create surface" right after that call. -/
theorem main_fails_fast_witness :
    returnsNull envNullSurface .glfwGetWGPUSurface = true ∧
      (∀ j : CheckedStep, j.index < CheckedStep.glfwGetWGPUSurface.index →
        returnsNull envNullSurface j = false) ∧
      (main envNullSurface).outcome = .error "Failed to create surface" ∧
      ((main envNullSurface).trace.map Call.name).count "glfwGetWGPUSurface" = 1 ∧
      ((main envNullSurface).trace.map Call.name).getLast? = some "glfwGetWGPUSurface" := by
  have hk : returnsNull envNullSurface .glfwGetWGPUSurface = true := by decide
  have hfirst : ∀ j : CheckedStep, j.index < CheckedStep.glfwGetWGPUSurface.index →
      returnsNull envNullSurface j = false := by
    intro j hj
    cases j <;> first | rfl | exact absurd hj (by decide)
  have h := main_fails_fast envNullSurface .glfwGetWGPUSurface hk hfirst
  exact ⟨hk, hfirst, h.1, h.2.1, h.2.2.1⟩

/-! ## Null checks -/

/-- C3, as the code has it: the window, surface, adapter, device and swapchain
handles are each guarded by an immediate null check.  If the call of one of
these steps occurs in a run of `main` and yields a null handle, the run ends
with a fatal error and that call is the last call of the run: nothing of the
next step is performed. -/
theorem main_null_check_aborts (env : Env) (c : Call)
    (hmem : c ∈ (main env).trace) (hchk : c.nullChecked = true)
    (hnull : returnedHandle env c = some nullptr) :
    (∃ msg, (main env).outcome = .error msg) ∧ (main env).trace.getLast? = some c := by
  revert hmem hchk hnull
  apply main_cases env (fun r =>
    c ∈ r.trace → c.nullChecked = true → returnedHandle env c = some nullptr →
      (∃ msg, r.outcome = .error msg) ∧ r.trace.getLast? = some c)
  · intro g0 hmem hchk hnull
    simp only [traceInit,
      List.cons_append, List.nil_append, List.mem_cons, List.mem_singleton, List.not_mem_nil,
      or_false] at hmem
    casesm* _ ∨ _
    all_goals subst_vars
    all_goals simp_all [Call.nullChecked, returnedHandle, Except.toOption, Env.window,
      Env.surface, Env.inst, Env.supportedLimits,
      traceInit]
  · intro g0 g1 hmem hchk hnull
    simp only [traceWindow, traceInit,
      List.cons_append, List.nil_append, List.mem_cons, List.mem_singleton, List.not_mem_nil,
      or_false] at hmem
    casesm* _ ∨ _
    all_goals subst_vars
    all_goals simp_all [Call.nullChecked, returnedHandle, Except.toOption, Env.window,
      Env.surface, Env.inst, Env.supportedLimits,
      traceWindow, traceInit]
  · intro g0 g1 g2 hmem hchk hnull
    simp only [traceSurface, traceWindow, traceInit,
      List.cons_append, List.nil_append, List.mem_cons, List.mem_singleton, List.not_mem_nil,
      or_false] at hmem
    casesm* _ ∨ _
    all_goals subst_vars
    all_goals simp_all [Call.nullChecked, returnedHandle, Except.toOption, Env.window,
      Env.surface, Env.inst, Env.supportedLimits,
      traceSurface, traceWindow, traceInit]
  · intro e g0 g1 g2 g3 hmem hchk hnull
    simp only [traceAdapter, traceSurface, traceWindow, traceInit,
      List.cons_append, List.nil_append, List.mem_cons, List.mem_singleton, List.not_mem_nil,
      or_false] at hmem
    casesm* _ ∨ _
    all_goals subst_vars
    all_goals simp_all [Call.nullChecked, returnedHandle, Except.toOption, Env.window,
      Env.surface, Env.inst, Env.supportedLimits,
      traceAdapter, traceSurface, traceWindow, traceInit]
  · intro g0 g1 g2 g3 hmem hchk hnull
    simp only [traceAdapter, traceSurface, traceWindow, traceInit,
      List.cons_append, List.nil_append, List.mem_cons, List.mem_singleton, List.not_mem_nil,
      or_false] at hmem
    casesm* _ ∨ _
    all_goals subst_vars
    all_goals simp_all [Call.nullChecked, returnedHandle, Except.toOption, Env.window,
      Env.surface, Env.inst, Env.supportedLimits,
      traceAdapter, traceSurface, traceWindow, traceInit]
  · intro a e g0 g1 g2 g3 g4 g5 hmem hchk hnull
    simp only [traceDevice, traceAdapter, traceSurface, traceWindow, traceInit,
      List.cons_append, List.nil_append, List.mem_cons, List.mem_singleton, List.not_mem_nil,
      or_false] at hmem
    casesm* _ ∨ _
    all_goals subst_vars
    all_goals simp_all [Call.nullChecked, returnedHandle, Except.toOption, Env.window,
      Env.surface, Env.inst, Env.supportedLimits,
      traceDevice, traceAdapter, traceSurface, traceWindow, traceInit]
  · intro a g0 g1 g2 g3 g4 g5 hmem hchk hnull
    simp only [traceDevice, traceAdapter, traceSurface, traceWindow, traceInit,
      List.cons_append, List.nil_append, List.mem_cons, List.mem_singleton, List.not_mem_nil,
      or_false] at hmem
    casesm* _ ∨ _
    all_goals subst_vars
    all_goals simp_all [Call.nullChecked, returnedHandle, Except.toOption, Env.window,
      Env.surface, Env.inst, Env.supportedLimits,
      traceDevice, traceAdapter, traceSurface, traceWindow, traceInit]
  · intro a d g0 g1 g2 g3 g4 g5 g6 g7 hmem hchk hnull
    simp only [traceSwapChain, traceDevice, traceAdapter, traceSurface, traceWindow,
      traceInit,
      List.cons_append, List.nil_append, List.mem_cons, List.mem_singleton, List.not_mem_nil,
      or_false] at hmem
    casesm* _ ∨ _
    all_goals subst_vars
    all_goals simp_all [Call.nullChecked, returnedHandle, Except.toOption, Env.window,
      Env.surface, Env.inst, Env.supportedLimits,
      traceSwapChain, traceDevice, traceAdapter, traceSurface, traceWindow,
      traceInit]
  · intro a d e g0 g1 g2 g3 g4 g5 g6 g7 g8 hmem hchk hnull
    simp only [traceShader, traceSwapChain, traceDevice, traceAdapter, traceSurface,
      traceWindow, traceInit,
      List.cons_append, List.nil_append, List.mem_cons, List.mem_singleton, List.not_mem_nil,
      or_false] at hmem
    casesm* _ ∨ _
    all_goals subst_vars
    all_goals simp_all [Call.nullChecked, returnedHandle, Except.toOption, Env.window,
      Env.surface, Env.inst, Env.supportedLimits,
      traceShader, traceSwapChain, traceDevice, traceAdapter, traceSurface,
      traceWindow, traceInit]
  · intro a d m e g0 g1 g2 g3 g4 g5 g6 g7 g8 g9 hmem hchk hnull
    simp only [traceDefaultLayout, traceShader, traceSwapChain, traceDevice, traceAdapter,
      traceSurface, traceWindow, traceInit,
      List.cons_append, List.nil_append, List.mem_cons, List.mem_singleton, List.not_mem_nil,
      or_false] at hmem
    casesm* _ ∨ _
    all_goals subst_vars
    all_goals simp_all [Call.nullChecked, returnedHandle, Except.toOption, Env.window,
      Env.surface, Env.inst, Env.supportedLimits,
      traceDefaultLayout, traceShader, traceSwapChain, traceDevice, traceAdapter,
      traceSurface, traceWindow, traceInit]
  · intro a d m l g0 g1 g2 g3 g4 g5 g6 g7 g8 g9 hmem hchk hnull
    simp only [traceFull, traceDefaultLayout, traceShader, traceSwapChain, traceDevice,
      traceAdapter, traceSurface, traceWindow, traceInit,
      List.cons_append, List.nil_append, List.mem_cons, List.mem_singleton, List.not_mem_nil,
      or_false] at hmem
    casesm* _ ∨ _
    all_goals subst_vars
    all_goals simp_all [Call.nullChecked, returnedHandle, Except.toOption, Env.window,
      Env.surface, Env.inst, Env.supportedLimits,
      traceFull, traceDefaultLayout, traceShader, traceSwapChain, traceDevice,
      traceAdapter, traceSurface, traceWindow, traceInit]

/-- Witness of C3 as amended: in the run where the surface creation returns
null, that call is null-checked and is the last call of the run. -/
theorem main_null_check_aborts_witness :
    Call.glfwGetWGPUSurface 1 2 ∈ (main envNullSurface).trace ∧
      (Call.glfwGetWGPUSurface 1 2).nullChecked = true ∧
      returnedHandle envNullSurface (.glfwGetWGPUSurface 1 2) = some nullptr ∧
      (∃ msg, (main envNullSurface).outcome = .error msg) ∧
      (main envNullSurface).trace.getLast? = some (.glfwGetWGPUSurface 1 2) := by
  have hmem : Call.glfwGetWGPUSurface 1 2 ∈ (main envNullSurface).trace := by
    rw [show (main envNullSurface).trace = traceSurface envNullSurface from rfl]
    simp [traceSurface, Env.inst, Env.window, envNullSurface, envOk]
  have h := main_null_check_aborts envNullSurface (.glfwGetWGPUSurface 1 2) hmem rfl rfl
  exact ⟨hmem, rfl, rfl, h.1, h.2⟩

/-- C3 as stated fails for the handles `main` does not check.  When the queue
retrieval returns null, `main` still creates the swapchain, loads the shader
module and creates the bind-group layout, and returns normally; when the
bind-group layout creation returns null, `main` returns normally with exit
code 0 and raises no error. -/
theorem main_unchecked_null_continues :
    (Call.wgpuDeviceGetQueue 5).handleProducing = true ∧
      returnedHandle envNullQueue (.wgpuDeviceGetQueue 5) = some nullptr ∧
      (main envNullQueue).trace.map Call.name = fullNames ∧
      (main envNullQueue).outcome.toOption.map MainFrame.queue = some nullptr ∧
      (main envNullQueue).outcome.toOption.map MainFrame.exitCode = some 0 ∧
      (main envNullLayout).trace.map Call.name = fullNames ∧
      ((main envNullLayout).trace.getLast?.map fun c => (c.name, returnedHandle envNullLayout c))
        = some ("wgpuDeviceCreateBindGroupLayout", some nullptr) ∧
      (main envNullLayout).outcome.toOption.map MainFrame.bindGroupLayout = some nullptr ∧
      (main envNullLayout).outcome.toOption.map MainFrame.exitCode = some 0 := by
  decide

/-! ## The sequence of handle-producing calls -/

/-- C4, as the code has it: in every run of `main` in which every call
succeeds, the handle-producing calls are, in this order and once each,
instance creation, window creation, surface creation, adapter request, device
request, queue retrieval, swapchain creation, shader module load and
bind-group layout creation; after the instance creation they are exactly the
eight steps from window creation on; the run returns. -/
theorem main_handle_call_sequence (env : Env)
    (h : ∀ c ∈ (main env).trace, callSucceeds env c = true) :
    ((main env).trace.filter Call.handleProducing).map Call.name =
        ["wgpuCreateInstance", "glfwCreateWindow", "glfwGetWGPUSurface", "Utils::requestAdapter",
         "Utils::requestDevice", "wgpuDeviceGetQueue", "wgpuDeviceCreateSwapChain",
         "Utils::loadShaderModule", "wgpuDeviceCreateBindGroupLayout"] ∧
      ((main env).trace.filter Call.afterInstance).map Call.name =
        ["glfwCreateWindow", "glfwGetWGPUSurface", "Utils::requestAdapter",
         "Utils::requestDevice", "wgpuDeviceGetQueue", "wgpuDeviceCreateSwapChain",
         "Utils::loadShaderModule", "wgpuDeviceCreateBindGroupLayout"] ∧
      (main env).trace.map Call.name = fullNames ∧
      ∃ f, (main env).outcome = .ok f := by
  revert h
  apply main_cases env (fun r =>
    (∀ c ∈ r.trace, callSucceeds env c = true) →
    (r.trace.filter Call.handleProducing).map Call.name =
        ["wgpuCreateInstance", "glfwCreateWindow", "glfwGetWGPUSurface", "Utils::requestAdapter",
         "Utils::requestDevice", "wgpuDeviceGetQueue", "wgpuDeviceCreateSwapChain",
         "Utils::loadShaderModule", "wgpuDeviceCreateBindGroupLayout"] ∧
      (r.trace.filter Call.afterInstance).map Call.name =
        ["glfwCreateWindow", "glfwGetWGPUSurface", "Utils::requestAdapter",
         "Utils::requestDevice", "wgpuDeviceGetQueue", "wgpuDeviceCreateSwapChain",
         "Utils::loadShaderModule", "wgpuDeviceCreateBindGroupLayout"] ∧
      r.trace.map Call.name = fullNames ∧
      ∃ f, r.outcome = .ok f)
  · intro g0 h
    have hc := h .glfwInit (by simp [traceInit])
    simp [callSucceeds, g0] at hc
  · intro _ g1 h
    have hc := h (.glfwCreateWindow 800 600 "WebGPU" nullptr nullptr) (by simp [traceWindow])
    simp [callSucceeds, Call.handleProducing, returnedHandle] at hc
    exact absurd g1 hc
  · intro _ _ g2 h
    have hc := h (.glfwGetWGPUSurface env.inst env.window) (by simp [traceSurface])
    simp [callSucceeds, Call.handleProducing, returnedHandle] at hc
    exact absurd g2 hc
  · intro e _ _ _ g3 h
    have hc := h (.requestAdapter env.inst (adapterOptions env.surface)) (by simp [traceAdapter])
    simp [callSucceeds, Call.handleProducing, returnedHandle, g3, Except.toOption] at hc
  · intro _ _ _ g3 h
    have hc := h (.requestAdapter env.inst (adapterOptions env.surface)) (by simp [traceAdapter])
    simp [callSucceeds, Call.handleProducing, returnedHandle, g3, Except.toOption] at hc
  · intro a e _ _ _ _ _ g5 h
    have hc := h (.requestDevice a (deviceDesc (env.supportedLimits a))) (by simp [traceDevice])
    simp [callSucceeds, Call.handleProducing, returnedHandle, g5, Except.toOption] at hc
  · intro a _ _ _ _ _ g5 h
    have hc := h (.requestDevice a (deviceDesc (env.supportedLimits a))) (by simp [traceDevice])
    simp [callSucceeds, Call.handleProducing, returnedHandle, g5, Except.toOption] at hc
  · intro a d _ _ _ _ _ _ _ g7 h
    have hc := h (.wgpuDeviceCreateSwapChain d env.surface swapChainDesc)
      (by simp [traceSwapChain])
    simp [callSucceeds, Call.handleProducing, returnedHandle] at hc
    exact absurd g7 hc
  · intro a d e _ _ _ _ _ _ _ _ g8 h
    have hc := h (.loadShaderModule "shaders.wgsl" d) (by simp [traceShader])
    simp [callSucceeds, Call.handleProducing, returnedHandle, g8, Except.toOption] at hc
  · intro a d m e _ _ _ _ _ _ _ _ _ g9 h
    have hc := h .createDefaultBindingLayout (by simp [traceDefaultLayout])
    simp [callSucceeds, g9, Except.toBool] at hc
  · intro a d m l _ _ _ _ _ _ _ _ _ _ _
    exact ⟨rfl, rfl, rfl, _, rfl⟩

/-- Witness of C4 as amended: the sample run. -/
theorem main_handle_call_sequence_witness :
    (∀ c ∈ (main envOk).trace, callSucceeds envOk c = true) ∧
      ((main envOk).trace.filter Call.handleProducing).map Call.name =
        ["wgpuCreateInstance", "glfwCreateWindow", "glfwGetWGPUSurface", "Utils::requestAdapter",
         "Utils::requestDevice", "wgpuDeviceGetQueue", "wgpuDeviceCreateSwapChain",
         "Utils::loadShaderModule", "wgpuDeviceCreateBindGroupLayout"] :=
  ⟨by decide, (main_handle_call_sequence envOk (by decide)).1⟩

/-- C4 as stated fails: in the sample run every call succeeds, and the first
handle-producing call is the instance creation, which the claimed sequence
(window creation first) leaves out. -/
theorem main_handle_calls_start_with_instance :
    (∀ c ∈ (main envOk).trace, callSucceeds envOk c = true) ∧
      (Call.wgpuCreateInstance instanceDesc).handleProducing = true ∧
      ((main envOk).trace.filter Call.handleProducing).head? =
        some (.wgpuCreateInstance instanceDesc) ∧
      ((main envOk).trace.filter Call.handleProducing).map Call.name ≠
        ["glfwCreateWindow", "glfwGetWGPUSurface", "Utils::requestAdapter",
         "Utils::requestDevice", "wgpuDeviceGetQueue", "wgpuDeviceCreateSwapChain",
         "Utils::loadShaderModule", "wgpuDeviceCreateBindGroupLayout"] :=
  ⟨by decide, rfl, rfl, by decide⟩

/-! ## Which handles each step receives -/

end WebGPUError
